import Mathlib

/-!
Verification of the heuristic webpage-quality scoring engine
(`functions/src/services/websiteAnalyzer.ts`, language-parameterized version,
together with `lighthouseService.ts`).

The TypeScript engine is shallowly embedded: each analyzer is a pure Lean
function of a `Doc` record that collects exactly the DOM observations the
cheerio queries read, plus the auxiliary inputs (load time, probe results)
and the optional external audit signal.  Scores are tracked in `Int`
(penalties subtract; the clamp at the end of each analyzer maps into
`[0,100]`), fractional quantities (LCP seconds, blend weights) in `Rat`.
-/

namespace WebsiteAnalyzer

/-- The two supported locales (`type Lang = 'sv' | 'en'`). -/
inductive Lang where
  | sv
  | en
deriving DecidableEq, Repr

/-- Message selection `tr(lang, sv, en)`: pick the text for the locale. -/
def tr (lang : Lang) (sv en : String) : String :=
  match lang with
  | .en => en
  | .sv => sv

/-- Issue severity (`type: 'error' | 'warning' | 'info'`). -/
inductive Severity where
  | error
  | warning
  | info
deriving DecidableEq, Repr

/-- An issue as produced by the analyzers:
`{type, message, recommendation}`. -/
structure Issue where
  type : Severity
  message : String
  recommendation : String
deriving DecidableEq, Repr

/-- Embeds `String.prototype.toLowerCase` character-wise for the character
repertoire occurring in the engine's messages (ASCII letters plus the
Latin-1 letters used by the Swedish texts). -/
def jsCharToLower (c : Char) : Char :=
  if 'A' ≤ c ∧ c ≤ 'Z' then Char.ofNat (c.toNat + 32)
  else if c = 'Å' then 'å'
  else if c = 'Ä' then 'ä'
  else if c = 'Ö' then 'ö'
  else if c = 'É' then 'é'
  else c

/-- Embeds the lowercasing call `s.toLowerCase()`. -/
def jsToLower (s : String) : String :=
  String.mk (s.data.map jsCharToLower)

/-- Embeds the substring test `haystack.includes(needle)`. -/
def jsIncludes (haystack needle : String) : Bool :=
  decide (needle.data <:+: haystack.data)

/-- Embeds `Math.round` on the rationals the engine computes with:
round half toward positive infinity. -/
def jsRound (x : ℚ) : ℤ :=
  ⌊x + 1 / 2⌋

/-- Final clamp of a running score: `Math.max(0, Math.min(100, score))`. -/
def clampScore (s : ℤ) : ℤ :=
  max 0 (min 100 s)

theorem clampScore_nonneg (s : ℤ) : 0 ≤ clampScore s := le_max_left 0 _

theorem clampScore_le_100 (s : ℤ) : clampScore s ≤ 100 := by
  unfold clampScore
  omega

theorem jsRound_bounds {x : ℚ} (h0 : 0 ≤ x) (h1 : x ≤ 100) :
    0 ≤ jsRound x ∧ jsRound x ≤ 100 := by
  unfold jsRound
  constructor
  · exact Int.le_floor.mpr (by push_cast; linarith)
  · have h101 : ⌊x + 1 / 2⌋ < (101 : ℤ) :=
      Int.floor_lt.mpr (by push_cast; linarith)
    omega

/-!
Stable descending sort.

`Array.prototype.sort` with comparator `(a, b) => b.key - a.key` is a stable
sort placing larger keys first (stability is guaranteed by the JS spec).
A stable sort's output is uniquely determined by the key and the input
order, so we model it by stable insertion sort and prove the three facts
that pin the output down: it is a permutation of the input, it is sorted
with keys descending, and for every key value the elements carrying that
key keep their input order.
-/

/-- Insert `x` into `s` in front of the first element whose key is not
larger than `x`'s key (so `x` goes before later-inserted equal keys). -/
def insertDesc (key : α → ℤ) (x : α) : List α → List α
  | [] => [x]
  | y :: ys => if key y ≤ key x then x :: y :: ys else y :: insertDesc key x ys

/-- Stable sort, descending by `key`. -/
def sortDesc (key : α → ℤ) : List α → List α
  | [] => []
  | x :: xs => insertDesc key x (sortDesc key xs)

theorem insertDesc_perm (key : α → ℤ) (x : α) (s : List α) :
    List.Perm (insertDesc key x s) (x :: s) := by
  induction s with
  | nil => simp [insertDesc]
  | cons y ys ih =>
    unfold insertDesc
    by_cases h : key y ≤ key x
    · simp [h]
    · simp only [h, if_false]
      exact (List.Perm.cons y ih).trans (List.Perm.swap x y ys)

theorem sortDesc_perm (key : α → ℤ) (l : List α) :
    List.Perm (sortDesc key l) l := by
  induction l with
  | nil => simp [sortDesc]
  | cons x xs ih =>
    exact (insertDesc_perm key x (sortDesc key xs)).trans (List.Perm.cons x ih)

theorem insertDesc_sorted (key : α → ℤ) (x : α) (s : List α)
    (hs : List.Sorted (fun a b => key b ≤ key a) s) :
    List.Sorted (fun a b => key b ≤ key a) (insertDesc key x s) := by
  induction s with
  | nil => simp [insertDesc]
  | cons y ys ih =>
    rw [List.sorted_cons] at hs
    obtain ⟨hy, hys⟩ := hs
    unfold insertDesc
    by_cases h : key y ≤ key x
    · simp only [h, if_true]
      rw [List.sorted_cons]
      refine ⟨?_, ?_⟩
      · intro b hb
        rcases List.mem_cons.mp hb with rfl | hb
        · exact h
        · exact le_trans (hy b hb) h
      · rw [List.sorted_cons]; exact ⟨hy, hys⟩
    · simp only [h, if_false]
      rw [List.sorted_cons]
      refine ⟨?_, ih hys⟩
      intro b hb
      rcases List.mem_cons.mp ((insertDesc_perm key x ys).mem_iff.mp hb) with rfl | hb
      · exact le_of_lt (lt_of_not_le h)
      · exact hy b hb

theorem sortDesc_sorted (key : α → ℤ) (l : List α) :
    List.Sorted (fun a b => key b ≤ key a) (sortDesc key l) := by
  induction l with
  | nil => simp [sortDesc]
  | cons x xs ih => exact insertDesc_sorted key x _ ih

theorem insertDesc_filter_eq (key : α → ℤ) (x : α) (s : List α) :
    (insertDesc key x s).filter (fun a => decide (key a = key x)) =
      x :: s.filter (fun a => decide (key a = key x)) := by
  induction s with
  | nil => simp [insertDesc]
  | cons y ys ih =>
    unfold insertDesc
    by_cases h : key y ≤ key x
    · simp only [h, if_true]
      rw [List.filter_cons]
      simp
    · have hne : ¬ key y = key x := fun he => h (le_of_eq he)
      simp only [h, if_false]
      rw [List.filter_cons, List.filter_cons]
      simp [hne, ih]

theorem insertDesc_filter_ne (key : α → ℤ) (x : α) (s : List α) (p : ℤ)
    (hp : key x ≠ p) :
    (insertDesc key x s).filter (fun a => decide (key a = p)) =
      s.filter (fun a => decide (key a = p)) := by
  induction s with
  | nil => simp [insertDesc, hp]
  | cons y ys ih =>
    unfold insertDesc
    by_cases h : key y ≤ key x
    · simp only [h, if_true]
      rw [List.filter_cons, List.filter_cons]
      simp [hp]
    · simp only [h, if_false]
      rw [List.filter_cons, List.filter_cons]
      by_cases hy : key y = p <;> simp [hy, ih]

/-- Stability: for every key value, the elements carrying that key appear
in the sorted output in their input order. -/
theorem sortDesc_stable (key : α → ℤ) (l : List α) (p : ℤ) :
    (sortDesc key l).filter (fun a => decide (key a = p)) =
      l.filter (fun a => decide (key a = p)) := by
  induction l with
  | nil => simp [sortDesc]
  | cons x xs ih =>
    unfold sortDesc
    by_cases hx : key x = p
    · subst hx
      rw [insertDesc_filter_eq, ih, List.filter_cons]
      simp
    · rw [insertDesc_filter_ne key x _ p hx, ih, List.filter_cons]
      simp [hx]

/-!
Priority issue ranker (`extractPriorityIssues`).
-/

/-- Base priority by severity:
`issue.type === 'error' ? 10 : issue.type === 'warning' ? 5 : 2`. -/
def basePriority (t : Severity) : ℤ :=
  match t with
  | .error => 10
  | .warning => 5
  | .info => 2

/-- The `impactKeywords` object, in insertion order (all keys are
non-numeric strings, so `Object.entries` yields them in this order). -/
def impactKeywords : List (String × ℤ) :=
  [("https", 20), ("viewport", 18), ("title", 17), ("h1", 16),
   ("meta description", 15), ("alt", 14), ("label", 14), ("lang", 13),
   ("sitemap", 12), ("robots", 11), ("navigation", 10), ("laddning", 15),
   ("load", 15), ("prestanda", 14), ("performance", 14), ("mobil", 13),
   ("mobile", 13)]

/-- The boost loop: `for (const [keyword, boost] of Object.entries(...))
{ if (issue.message.toLowerCase().includes(keyword)) { priority += boost;
break; } }` — the first matching keyword contributes, then the loop stops. -/
def keywordBoost (msg : String) : List (String × ℤ) → ℤ
  | [] => 0
  | (k, w) :: rest =>
    if jsIncludes (jsToLower msg) k then w else keywordBoost msg rest

/-- Computed priority of one collected issue. -/
def priorityOf (i : Issue) : ℤ :=
  basePriority i.type + keywordBoost i.message impactKeywords

/-- An issue tagged with its source-category label, as pushed onto
`allIssues`. -/
structure PIssue where
  category : String
  message : String
  priority : ℤ
deriving DecidableEq, Repr

/-- Category label for accessibility issues
(`lang === 'en' ? 'Accessibility' : 'Tillgänglighet'`). -/
def accessibilityLabel (lang : Lang) : String :=
  tr lang "Tillgänglighet" "Accessibility"

/-- Tag every issue of one category with the category label and its
computed priority, in order. -/
def tagIssues (cat : String) (l : List Issue) : List PIssue :=
  l.map fun i => ⟨cat, i.message, priorityOf i⟩

/-- The collected `allIssues` array: accessibility issues first, then SEO,
then design, each in check-evaluation order. -/
def allPriorityIssues (acc seo des : List Issue) (lang : Lang) : List PIssue :=
  tagIssues (accessibilityLabel lang) acc ++ tagIssues "SEO" seo ++
    tagIssues "Design" des

/-- The ranker `extractPriorityIssues`: sort all collected issues descending by
priority (stable), take the first 6, format as
`"<CategoryLabel>: <message>"`. -/
def extractPriorityIssues (acc seo des : List Issue) (lang : Lang) :
    List String :=
  ((sortDesc (fun p => p.priority) (allPriorityIssues acc seo des lang)).take
      6).map fun i => i.category ++ ": " ++ i.message

/-- Spec reading of the boost rule: the weight of the first keyword in the
fixed table order whose text occurs in the issue's lowercased message, or
no boost if none matches. -/
def specKeywordBoost (msg : String) : ℤ :=
  ((impactKeywords.find? fun kv => jsIncludes (jsToLower msg) kv.1).map
      Prod.snd).getD 0

/-- Spec reading of the final priority: base + boost (or base alone). -/
def specPriorityOf (i : Issue) : ℤ :=
  basePriority i.type + specKeywordBoost i.message

/-- Spec reading of the ranker: tag each issue with its category label and
spec priority (accessibility, then SEO, then design), stable-sort
descending by priority, return the top 6 formatted as
`"<CategoryLabel>: <message>"`. -/
def extractPriorityIssuesSpec (acc seo des : List Issue) (lang : Lang) :
    List String :=
  let tagged :=
    (acc.map fun i => PIssue.mk (accessibilityLabel lang) i.message
        (specPriorityOf i)) ++
      (seo.map fun i => PIssue.mk "SEO" i.message (specPriorityOf i)) ++
      (des.map fun i => PIssue.mk "Design" i.message (specPriorityOf i))
  ((sortDesc (fun p => p.priority) tagged).take 6).map
    fun i => i.category ++ ": " ++ i.message

/-- The for-with-break boost loop computes exactly the weight of the first
matching table entry. -/
theorem keywordBoost_eq_spec (msg : String) (table : List (String × ℤ)) :
    keywordBoost msg table =
      ((table.find? fun kv => jsIncludes (jsToLower msg) kv.1).map
          Prod.snd).getD 0 := by
  induction table with
  | nil => simp [keywordBoost]
  | cons kv rest ih =>
    obtain ⟨k, w⟩ := kv
    by_cases h : jsIncludes (jsToLower msg) k
    · simp [keywordBoost, List.find?, h]
    · simp [keywordBoost, List.find?, h, ih]

theorem priorityOf_eq_spec (i : Issue) : priorityOf i = specPriorityOf i := by
  unfold priorityOf specPriorityOf specKeywordBoost
  rw [keywordBoost_eq_spec]

/-- C5: the priority-issue ranker gives each issue base priority 10/5/2 by
severity plus at most the boost of the first matching keyword of the fixed
table, stable-sorts all issues descending by priority (accessibility
first, then SEO, then design, ties in collection order), and returns the
top 6 formatted as `"<CategoryLabel>: <message>"`: the implementation
equals that spec reading, returns at most 6 entries, and the sort it uses
is a permutation, descending in priority, and stable (per-priority-value
subsequences keep their collection order). -/
theorem c5_extractPriorityIssues_correct (acc seo des : List Issue)
    (lang : Lang) :
    extractPriorityIssues acc seo des lang =
        extractPriorityIssuesSpec acc seo des lang ∧
      (extractPriorityIssues acc seo des lang).length ≤ 6 ∧
      List.Sorted (fun a b => b.priority ≤ a.priority)
        (sortDesc (fun p : PIssue => p.priority)
          (allPriorityIssues acc seo des lang)) ∧
      List.Perm
        (sortDesc (fun p : PIssue => p.priority)
          (allPriorityIssues acc seo des lang))
        (allPriorityIssues acc seo des lang) ∧
      ∀ p : ℤ,
        (sortDesc (fun q : PIssue => q.priority)
              (allPriorityIssues acc seo des lang)).filter
            (fun q => decide (q.priority = p)) =
          (allPriorityIssues acc seo des lang).filter
            (fun q => decide (q.priority = p)) := by
  refine ⟨?_, ?_, sortDesc_sorted _ _, sortDesc_perm _ _,
    fun p => sortDesc_stable _ _ p⟩
  · simp [extractPriorityIssues, extractPriorityIssuesSpec,
      allPriorityIssues, tagIssues, priorityOf_eq_spec]
  · simp [extractPriorityIssues, List.length_take]

/-!
Quick-win selector (`extractQuickWins`).
-/

/-- Condition `list.some(i => i.message.toLowerCase().includes(sub))`. -/
def anyMsg (l : List Issue) (sub : String) : Bool :=
  l.any fun i => jsIncludes (jsToLower i.message) sub

/-- Condition restricted to Error severity:
`list.some(i => i.message.toLowerCase().includes(sub) && i.type === 'error')`. -/
def anyErrMsg (l : List Issue) (sub : String) : Bool :=
  l.any fun i =>
    jsIncludes (jsToLower i.message) sub && decide (i.type = Severity.error)

/-- One entry of the `potentialWins` catalog: evaluated trigger condition,
localized action text, effort (1-5) and impact (1-10) ratings. -/
structure QuickWinCand where
  condition : Bool
  action : String
  effort : ℤ
  impact : ℤ
deriving DecidableEq, Repr

/-- The fixed `potentialWins` catalog, in source order, with each
condition evaluated against the current issue sets. -/
def potentialWins (acc seo des : List Issue) (lang : Lang) :
    List QuickWinCand :=
  [⟨anyMsg acc "alt",
    tr lang "Lägg till beskrivande alt-text på alla bilder"
      "Add descriptive alt text to all images", 2, 8⟩,
   ⟨anyMsg acc "språk" || anyMsg acc "lang",
    tr lang "Lägg till lang=\"sv\" attribut på HTML-elementet"
      "Add a lang attribute to the HTML element", 1, 6⟩,
   ⟨anyMsg seo "meta description",
    tr lang "Skapa lockande meta description (150-160 tecken)"
      "Create a compelling meta description (150-160 characters)", 2, 9⟩,
   ⟨anyErrMsg seo "title",
    tr lang "Lägg till eller förbättra sidrubrik (title-tagg)"
      "Add or improve the page title (title tag)", 1, 10⟩,
   ⟨anyMsg seo "robots.txt",
    tr lang "Skapa robots.txt för bättre crawling"
      "Create robots.txt for better crawling", 1, 5⟩,
   ⟨anyMsg seo "sitemap",
    tr lang "Generera och publicera XML-sitemap"
      "Generate and publish an XML sitemap", 2, 7⟩,
   ⟨anyMsg seo "canonical",
    tr lang "Lägg till canonical URL-taggar" "Add canonical URL tags", 1, 6⟩,
   ⟨anyMsg seo "open graph" || anyMsg seo "social",
    tr lang "Implementera Open Graph-taggar för social delning"
      "Implement Open Graph tags for social sharing", 2, 7⟩,
   ⟨anyMsg seo "h1",
    tr lang "Lägg till eller optimera H1-rubrik"
      "Add or optimize the H1 heading", 1, 8⟩,
   ⟨anyErrMsg des "viewport",
    tr lang "Lägg till viewport meta-tagg för mobilanpassning"
      "Add a viewport meta tag for mobile optimization", 1, 10⟩,
   ⟨anyMsg des "favicon",
    tr lang "Skapa och lägg till favicon" "Create and add a favicon", 1, 4⟩,
   ⟨anyMsg acc "label" || anyMsg acc "etikett",
    tr lang "Lägg till etiketter på alla formulärfält"
      "Add labels to all form fields", 2, 7⟩,
   ⟨anyMsg des "lazy",
    tr lang "Implementera lazy loading för bilder"
      "Implement lazy loading for images", 2, 8⟩,
   ⟨anyMsg seo "strukturerad data" || anyMsg seo "schema",
    tr lang "Lägg till Schema.org structured data (JSON-LD)"
      "Add Schema.org structured data (JSON-LD)", 3, 8⟩,
   ⟨anyMsg acc "main" || anyMsg acc "landmark",
    tr lang "Använd semantic HTML (<main>, <nav>, <footer>)"
      "Use semantic HTML (<main>, <nav>, <footer>)", 2, 6⟩]

/-- A scored quick win, as pushed when a candidate's condition holds:
`score = impact * 2 - effort`. -/
structure QuickWin where
  action : String
  effort : ℤ
  impact : ℤ
  score : ℤ
deriving DecidableEq, Repr

/-- The collected `quickWins` array: for each catalog candidate whose condition
holds, push the scored entry (catalog order). -/
def quickWinList (acc seo des : List Issue) (lang : Lang) : List QuickWin :=
  (potentialWins acc seo des lang).filterMap fun w =>
    if w.condition then
      some ⟨w.action, w.effort, w.impact, w.impact * 2 - w.effort⟩
    else none

/-- The selector `extractQuickWins`: sort the matching candidates descending by score
and return the action texts of the top 7. -/
def extractQuickWins (acc seo des : List Issue) (lang : Lang) : List String :=
  ((sortDesc (fun q => q.score) (quickWinList acc seo des lang)).take 7).map
    fun w => w.action

/-- Spec reading of the selector: exactly the candidates whose condition
holds are scored with `impact * 2 - effort`, sorted descending by that
score (stable), and the top 7 action texts are returned. -/
def extractQuickWinsSpec (acc seo des : List Issue) (lang : Lang) :
    List String :=
  ((sortDesc (fun w : QuickWinCand => w.impact * 2 - w.effort)
        ((potentialWins acc seo des lang).filter fun w => w.condition)).take
      7).map fun w => w.action

/-- The localized alt-text quick-win action. -/
def altTextAction (lang : Lang) : String :=
  tr lang "Lägg till beskrivande alt-text på alla bilder"
    "Add descriptive alt text to all images"

theorem insertDesc_map (f : α → β) (key : β → ℤ) (x : α) (s : List α) :
    insertDesc key (f x) (s.map f) =
      (insertDesc (fun a => key (f a)) x s).map f := by
  induction s with
  | nil => simp [insertDesc]
  | cons y ys ih =>
    unfold insertDesc
    by_cases h : key (f y) ≤ key (f x) <;> simp [h, ih]

theorem sortDesc_map (f : α → β) (key : β → ℤ) (l : List α) :
    sortDesc key (l.map f) = (sortDesc (fun a => key (f a)) l).map f := by
  induction l with
  | nil => simp [sortDesc]
  | cons x xs ih =>
    unfold sortDesc
    rw [List.map_cons]
    show insertDesc key (f x) ((sortDesc key) (xs.map f)) = _
    rw [ih, insertDesc_map]

theorem filterMap_if_eq_filter_map (l : List α) (p : α → Bool) (g : α → β) :
    (l.filterMap fun a => if p a then some (g a) else none) =
      (l.filter p).map g := by
  induction l with
  | nil => simp
  | cons x xs ih =>
    rw [List.filterMap_cons, List.filter_cons]
    by_cases h : p x <;> simp [h, ih]

/-- Every returned quick-win action text comes from a catalog candidate
whose condition held. -/
theorem mem_extractQuickWins {acc seo des : List Issue} {lang : Lang}
    {s : String} (h : s ∈ extractQuickWins acc seo des lang) :
    ∃ w ∈ potentialWins acc seo des lang,
      w.condition = true ∧ w.action = s := by
  unfold extractQuickWins at h
  obtain ⟨q, hq, rfl⟩ := List.mem_map.mp h
  have hq2 : q ∈ sortDesc (fun q => q.score) (quickWinList acc seo des lang) :=
    List.take_subset _ _ hq
  have hq3 : q ∈ quickWinList acc seo des lang :=
    (sortDesc_perm _ _).mem_iff.mp hq2
  unfold quickWinList at hq3
  obtain ⟨w, hw, heq⟩ := List.mem_filterMap.mp hq3
  by_cases hc : w.condition
  · refine ⟨w, hw, hc, ?_⟩
    simp only [hc, if_true, Option.some.injEq] at heq
    rw [← heq]
  · simp [hc] at heq

/-- C6: the quick-win selector scores exactly the catalog candidates whose
condition holds with `impact * 2 - effort`, sorts them descending by score
and returns the top 7 action texts (the implementation equals that spec
reading, returns at most 7 entries); a candidate with a false condition is
never included, and in particular if no accessibility issue message
contains "alt" then the alt-text quick win is absent. -/
theorem c6_extractQuickWins_correct (acc seo des : List Issue) (lang : Lang) :
    extractQuickWins acc seo des lang = extractQuickWinsSpec acc seo des lang ∧
      (extractQuickWins acc seo des lang).length ≤ 7 ∧
      ((∀ i ∈ acc, jsIncludes (jsToLower i.message) "alt" = false) →
        altTextAction lang ∉ extractQuickWins acc seo des lang) := by
  refine ⟨?_, ?_, ?_⟩
  · unfold extractQuickWins extractQuickWinsSpec quickWinList
    rw [filterMap_if_eq_filter_map, sortDesc_map]
    simp only [List.map_take, List.map_map]
    rfl
  · simp [extractQuickWins, List.length_take]
  · intro hyp hmem
    obtain ⟨w, hw, hcond, hact⟩ := mem_extractQuickWins hmem
    have hfalse : anyMsg acc "alt" = false := by
      simp only [anyMsg, List.any_eq_false]
      intro i hi
      simp [hyp i hi]
    simp only [potentialWins, List.mem_cons, List.not_mem_nil, or_false]
      at hw
    rcases hw with rfl | rfl | rfl | rfl | rfl | rfl | rfl | rfl | rfl |
      rfl | rfl | rfl | rfl | rfl | rfl
    · exact absurd hcond (by simp [hfalse])
    all_goals cases lang <;> simp [altTextAction, tr] at hact

/-!
The parsed document, embedded as the record of DOM observations the
cheerio queries of the three analyzers read.  Counts that feed a
subtraction in the source (the image alt-text counts) are stored as a
partition so the derived quantities are consistent by construction; every
other observation is an independent field.
-/

/-- Resolution state of the `link[rel="canonical"]` href against the page
URL: absent, `new URL(canonical, url)` throws, same hostname, or a
different hostname. -/
inductive CanonicalState where
  | missing
  | invalid
  | sameHost
  | otherHost
deriving DecidableEq, Repr

/-- DOM observations of the fetched document. -/
structure Doc where
  /-- Images whose `alt` attribute is absent. -/
  imgNoAltAttr : ℕ
  /-- Images with `alt=""` (empty string). -/
  imgEmptyAlt : ℕ
  /-- Images whose `alt` is non-empty but trims to the empty string. -/
  imgBlankAlt : ℕ
  /-- Images whose trimmed `alt` text is non-empty. -/
  imgGoodAlt : ℕ
  /-- Count of `img[srcset]`. -/
  imagesWithSrcset : ℕ
  /-- Count of `img[srcset], picture img`. -/
  respImages : ℕ
  /-- Count of `img[loading="lazy"]`. -/
  lazyImages : ℕ
  h1Count : ℕ
  h2Count : ℕ
  h3Count : ℕ
  h4Count : ℕ
  /-- Trimmed text of the first `h1` (empty when there is none). -/
  h1Text : String
  /-- Tag names of `h1..h6` in document order. -/
  headerStructure : List String
  /-- Non-hidden inputs/textareas/selects lacking label, `aria-label`,
  `aria-labelledby` and `title`. -/
  inputsNoLabel : ℕ
  /-- The remaining non-hidden inputs/textareas/selects. -/
  inputsLabeled : ℕ
  /-- Required fields with `aria-required="true"`. -/
  reqWithAria : ℕ
  /-- Required fields without `aria-required="true"`. -/
  reqNoAria : ℕ
  /-- Links with no text, no `aria-label` and no `title`. -/
  linksNoText : ℕ
  /-- Links whose trimmed lowercased text is one of the generic phrases. -/
  linksGenericText : ℕ
  /-- Links resolving to the page's own hostname (or starting with `/` or
  `#` when unresolvable). -/
  internalLinks : ℕ
  /-- Whether some `a[href^="#"]` text contains "skip" or "hoppa". -/
  hasSkipLink : Bool
  /-- Elements matching `button, [role="button"]` with no text and no
  `aria-label`. -/
  buttonsNoText : ℕ
  /-- The `lang` attribute of `<html>`, when present. -/
  htmlLang : Option String
  /-- Whether `main, [role="main"]` matches. -/
  hasMain : Bool
  /-- Count of `nav, [role="navigation"]` elements (the design analyzer's
  `nav, [role="navigation"], header nav` matches the same element set). -/
  navCount : ℕ
  /-- Count of `[style*="color"]`. -/
  inlineColorStyles : ℕ
  /-- Count of `a, button, input, select, textarea, [tabindex]`. -/
  focusableCount : ℕ
  /-- Count of `[tabindex^="-"]`. -/
  negTabindexCount : ℕ
  /-- Videos with no caption/subtitle track. -/
  videosNoCaptions : ℕ
  /-- Count of `[title]`. -/
  titleAttrCount : ℕ
  /-- Trimmed text of `<title>` (`$('title').text().trim()`). -/
  title : String
  /-- Trimmed `content` of `meta[name="description"]`, when the attribute
  is present. -/
  metaDescription : Option String
  /-- Whether `meta[name="viewport"]` matches. -/
  hasViewportMeta : Bool
  /-- The `content` attribute of the viewport meta, when present. -/
  viewportContent : Option String
  canonical : CanonicalState
  hasOgTitle : Bool
  hasOgDescription : Bool
  hasOgImage : Bool
  hasTwitterCard : Bool
  hasJsonLd : Bool
  hasMicrodata : Bool
  /-- Length of `body` text split on single spaces after whitespace
  normalization. -/
  wordCount : ℕ
  hasHreflang : Bool
  externalCSS : ℕ
  externalScripts : ℕ
  paragraphCount : ℕ
  /-- Sum of the text lengths of all paragraphs. -/
  paragraphChars : ℕ
  /-- Count of `p, div` with text and no `max-width` inline style. -/
  wideContainers : ℕ
  /-- Elements with an inline `font-size` below 12px. -/
  tinyTextCount : ℕ
  /-- Count of `nav a, [role="navigation"] a, header nav a`. -/
  navLinks : ℕ
  /-- Whether a mobile/hamburger/menu-toggle class matches. -/
  hasMobileMenu : Bool
  /-- Elements with white inline text color on a white/light background. -/
  lightTextOnLight : ℕ
  /-- Whether `section, article, main > div` matches. -/
  hasSections : Bool
  /-- Headings `h1..h4` without a `margin` inline style and with a next
  sibling. -/
  headersNoMargin : ℕ
  /-- Count of `button, [type="submit"], .btn, .button, a[class*="button"]`. -/
  designButtons : ℕ
  /-- Those of the above with a `primary` or `cta` class. -/
  primaryCTAs : ℕ
  formsCount : ℕ
  /-- Inputs (excluding hidden/submit) with no label and no placeholder. -/
  designInputsNoLabel : ℕ
  /-- Count of `input, textarea, select` (hidden included). -/
  allInputsCount : ℕ
  /-- Whether `[required], [pattern], [min], [max]` matches. -/
  hasValidationAttrs : Bool
  hasFooter : Bool
  hasFavicon : Bool
deriving DecidableEq, Repr

/-- Derived: `$('img').length`. -/
def Doc.totalImages (d : Doc) : ℕ :=
  d.imgNoAltAttr + d.imgEmptyAlt + d.imgBlankAlt + d.imgGoodAlt

/-- Derived: non-hidden `input, textarea, select` count. -/
def Doc.inputsCount (d : Doc) : ℕ :=
  d.inputsNoLabel + d.inputsLabeled

/-- Derived: `input[required], textarea[required], select[required]`
count. -/
def Doc.requiredCount (d : Doc) : ℕ :=
  d.reqWithAria + d.reqNoAria

/-- Derived: images counted by the SEO check as having descriptive alt
text (attribute present with non-empty trimmed text). -/
def Doc.seoImagesWithAlt (d : Doc) : ℕ :=
  d.imgGoodAlt

/-- Derived: images counted by the design check as missing alt text
(`!alt || alt.trim() === ''`). -/
def Doc.designImagesNoAlt (d : Doc) : ℕ :=
  d.imgNoAltAttr + d.imgEmptyAlt + d.imgBlankAlt

/-!
Count-proportional per-check penalties, named so the capping behavior can
be stated; each is the exact source expression.
-/

/-- Accessibility check 1: `Math.min(30, imagesWithoutAlt * 5)`. -/
def imagesAltPenalty (n : ℕ) : ℤ :=
  min 30 (5 * (n : ℤ))

/-- Accessibility check 3: `Math.min(20, inputsWithoutLabels * 5)`. -/
def labelsPenalty (n : ℕ) : ℤ :=
  min 20 (5 * (n : ℤ))

/-- Accessibility check 4: `Math.min(15, linksWithoutText * 3)`. -/
def linksTextPenalty (n : ℕ) : ℤ :=
  min 15 (3 * (n : ℤ))

/-- Accessibility check 5: `buttonsWithoutText * 5` (no cap). -/
def buttonsTextPenalty (n : ℕ) : ℤ :=
  5 * (n : ℤ)

/-- Accessibility check 11: `videoWithoutCaptions * 8` (no cap). -/
def videoCaptionsPenalty (n : ℕ) : ℤ :=
  8 * (n : ℤ)

/-- SEO check 7: `Math.min(10, imagesWithoutAlt * 2)`. -/
def seoImagesAltPenalty (n : ℕ) : ℤ :=
  min 10 (2 * (n : ℤ))

/-- SEO check 3: `Math.min(15, Math.floor((loadSpeed - 3000) / 1000) * 3)`
(evaluated under the guard `loadSpeed > 3000`). -/
def seoLoadSpeedPenalty (ms : ℕ) : ℤ :=
  min 15 (3 * (((ms - 3000) / 1000 : ℕ) : ℤ))

/-- Design check 2 (slow): `Math.min(15, Math.floor((loadTime - 3000) /
1000) * 4)`. -/
def designLoadSlowPenalty (ms : ℕ) : ℤ :=
  min 15 (4 * (((ms - 3000) / 1000 : ℕ) : ℤ))

/-- Design check 2 (very slow): `Math.min(25, Math.floor((loadTime - 5000)
/ 1000) * 5)`. -/
def designLoadVerySlowPenalty (ms : ℕ) : ℤ :=
  min 25 (5 * (((ms - 5000) / 1000 : ℕ) : ℤ))

/-- Design check 8: `Math.min(10, imagesWithoutAlt * 2)`. -/
def designImagesAltPenalty (n : ℕ) : ℤ :=
  min 10 (2 * (n : ℤ))

/-!
Accessibility analyzer (`analyzeAccessibilityEnhanced`).  The running
score starts at 100 and each check subtracts its penalty; no intermediate
floor is applied, the single clamp at the return is the last step.
-/

/-- Result record of the accessibility analyzer. -/
structure AccessibilityResults where
  score : ℤ
  issues : List Issue
  strengths : List String
deriving DecidableEq, Repr

/-- Total of the sequential deductions of the accessibility analyzer, in
check order (checks 1-12 of the source; checks 9 and 12 only push an
informational issue and subtract nothing). -/
def accPenalty (d : Doc) : ℤ :=
  (if 0 < d.imgNoAltAttr then imagesAltPenalty d.imgNoAltAttr else 0) +
  (if 5 < d.imgEmptyAlt then 5 else 0) +
  (if d.h1Count = 0 then 15 else if 1 < d.h1Count then 10 else 0) +
  (if 0 < d.h1Count ∧ d.h2Count = 0 ∧ (0 < d.h3Count ∨ 0 < d.h4Count)
    then 8 else 0) +
  (if 0 < d.inputsNoLabel then labelsPenalty d.inputsNoLabel else 0) +
  (if 0 < d.requiredCount ∧ d.reqWithAria < d.requiredCount then 3 else 0) +
  (if 0 < d.linksNoText then linksTextPenalty d.linksNoText else 0) +
  (if 3 < d.linksGenericText then 5 else 0) +
  (if 0 < d.buttonsNoText then buttonsTextPenalty d.buttonsNoText else 0) +
  (if d.htmlLang = none then 8 else 0) +
  (if ¬ d.hasMain then 7 else 0) +
  (if ¬ (0 < d.navCount) then 3 else 0) +
  (if ¬ d.hasSkipLink then 3 else 0) +
  (if 0 < d.negTabindexCount then 5 else 0) +
  (if 0 < d.videosNoCaptions then videoCaptionsPenalty d.videosNoCaptions
    else 0)

/-- Issues pushed by the accessibility analyzer, in check order. -/
def accIssues (d : Doc) (lang : Lang) : List Issue :=
  (if 0 < d.imgNoAltAttr then
    [⟨.error,
      tr lang (toString d.imgNoAltAttr ++ " bilder saknar alt-attribut")
        (toString d.imgNoAltAttr ++ " images missing alt attribute"),
      tr lang
        "Lägg till beskrivande alt-text för alla bilder. Även dekorativa bilder bör ha alt=\"\" för att markera dem som dekorativa."
        "Add descriptive alt text for all images. Decorative images should have alt=\"\" to mark them as decorative."⟩]
  else []) ++
  (if 5 < d.imgEmptyAlt then
    [⟨.warning,
      tr lang (toString d.imgEmptyAlt ++ " bilder har tom alt-text")
        (toString d.imgEmptyAlt ++ " images have empty alt text"),
      tr lang
        "Kontrollera att tomma alt-attribut endast används för dekorativa bilder."
        "Ensure empty alt attributes are only used for decorative images."⟩]
  else []) ++
  (if d.h1Count = 0 then
    [⟨.error, tr lang "Ingen H1-rubrik hittades" "No H1 heading found",
      tr lang
        "Lägg till en unik H1-rubrik som tydligt beskriver sidans huvudinnehåll. Detta är viktigt för både tillgänglighet och SEO."
        "Add a unique H1 heading that clearly describes the main content. This is important for both accessibility and SEO."⟩]
  else if 1 < d.h1Count then
    [⟨.warning,
      tr lang
        (toString d.h1Count ++ " H1-rubriker hittades (rekommenderat: 1)")
        (toString d.h1Count ++ " H1 headings found (recommended: 1)"),
      tr lang
        "Använd endast en H1-rubrik per sida för tydlig dokumentstruktur. Använd H2-H6 för underrubriker."
        "Use only one H1 per page for clear document structure. Use H2-H6 for subheadings."⟩]
  else []) ++
  (if 0 < d.h1Count ∧ d.h2Count = 0 ∧ (0 < d.h3Count ∨ 0 < d.h4Count) then
    [⟨.warning,
      tr lang "Bruten rubrikhierarki (H3/H4 utan H2)"
        "Broken heading hierarchy (H3/H4 without H2)",
      tr lang
        "Följ en logisk rubrikhierarki: H1 → H2 → H3 → H4. Hoppa inte över nivåer."
        "Follow a logical heading hierarchy: H1 → H2 → H3 → H4. Do not skip levels."⟩]
  else []) ++
  (if 0 < d.inputsNoLabel then
    [⟨.error,
      tr lang
        (toString d.inputsNoLabel ++
          " formulärfält saknar etiketter eller ARIA-labels")
        (toString d.inputsNoLabel ++
          " form fields lack labels or ARIA labels"),
      tr lang
        "Alla formulärfält måste ha tydliga etiketter via <label>, aria-label eller aria-labelledby för skärmläsare."
        "All form fields must have clear labels via <label>, aria-label or aria-labelledby for screen readers."⟩]
  else []) ++
  (if 0 < d.requiredCount ∧ d.reqWithAria < d.requiredCount then
    [⟨.info,
      tr lang "Obligatoriska fält saknar aria-required"
        "Required fields missing aria-required",
      tr lang
        "Lägg till aria-required=\"true\" på obligatoriska fält för bättre tillgänglighet."
        "Add aria-required=\"true\" on required fields for better accessibility."⟩]
  else []) ++
  (if 0 < d.linksNoText then
    [⟨.error,
      tr lang (toString d.linksNoText ++ " länkar saknar beskrivande text")
        (toString d.linksNoText ++ " links lack descriptive text"),
      tr lang
        "Alla länkar måste ha beskrivande text eller aria-label så användare förstår vart länken leder."
        "All links must have descriptive text or aria-label so users understand where the link leads."⟩]
  else []) ++
  (if 3 < d.linksGenericText then
    [⟨.warning,
      tr lang
        (toString d.linksGenericText ++
          " länkar använder generisk text (t.ex. \"klicka här\")")
        (toString d.linksGenericText ++
          " links use generic text (e.g., \"click here\")"),
      tr lang
        "Använd beskrivande länktexter som förklarar vart länken leder, t.ex. \"Läs mer om tillgänglighet\"."
        "Use descriptive link texts that explain where the link leads, e.g., \"Learn more about accessibility\"."⟩]
  else []) ++
  (if 0 < d.buttonsNoText then
    [⟨.error,
      tr lang
        (toString d.buttonsNoText ++ " knappar saknar beskrivande text")
        (toString d.buttonsNoText ++ " buttons lack descriptive text"),
      tr lang
        "Alla knappar måste ha text eller aria-label för att vara tillgängliga."
        "All buttons must have text or aria-label to be accessible."⟩]
  else []) ++
  (if d.htmlLang = none then
    [⟨.warning,
      tr lang "Språkattribut saknas på HTML-elementet"
        "Language attribute missing on HTML element",
      tr lang
        "Lägg till lang=\"sv\" (eller relevant språkkod) på <html>-taggen för att ange sidans språk."
        "Add a lang attribute (e.g., lang=\"en\") on the <html> tag to declare the page language."⟩]
  else []) ++
  (if ¬ d.hasMain then
    [⟨.warning,
      tr lang "Ingen <main> landmark hittades" "No <main> landmark found",
      tr lang "Använd <main> för att markera huvudinnehållet på sidan."
        "Use <main> to mark the main content on the page."⟩]
  else []) ++
  (if ¬ (0 < d.navCount) then
    [⟨.info,
      tr lang "Ingen <nav> landmark hittades" "No <nav> landmark found",
      tr lang "Använd <nav> för att markera navigationsområden."
        "Use <nav> to mark navigation areas."⟩]
  else []) ++
  (if ¬ d.hasSkipLink then
    [⟨.info,
      tr lang "Ingen \"hoppa till huvudinnehåll\"-länk hittades"
        "No \"skip to main content\" link found",
      tr lang
        "Lägg till en länk överst på sidan som låter tangentbordsanvändare hoppa direkt till huvudinnehållet."
        "Add a link at the top of the page that allows keyboard users to skip directly to the main content."⟩]
  else []) ++
  (if 10 < d.inlineColorStyles then
    [⟨.info,
      tr lang "Många inline-stilar för färger upptäckta"
        "Many inline color styles detected",
      tr lang
        "Kontrollera färgkontrasten manuellt för att säkerställa WCAG 2.1 AA-compliance (4.5:1 för normal text)."
        "Manually check color contrast to ensure WCAG 2.1 AA compliance (4.5:1 for normal text)."⟩]
  else []) ++
  (if 0 < d.negTabindexCount then
    [⟨.warning,
      tr lang
        (toString d.negTabindexCount ++ " element har negativ tabindex")
        (toString d.negTabindexCount ++ " elements have negative tabindex"),
      tr lang
        "Undvik tabindex=\"-1\" på element som ska vara åtkomliga via tangentbord."
        "Avoid tabindex=\"-1\" on elements that should be keyboard accessible."⟩]
  else []) ++
  (if 0 < d.videosNoCaptions then
    [⟨.warning,
      tr lang (toString d.videosNoCaptions ++ " videor saknar textning")
        (toString d.videosNoCaptions ++ " videos lack captions"),
      tr lang
        "Lägg till textningsspår (<track kind=\"captions\">) för alla videor."
        "Add caption tracks (<track kind=\"captions\">) for all videos."⟩]
  else []) ++
  (if 20 < d.titleAttrCount then
    [⟨.info,
      tr lang "Många title-attribut används" "Many title attributes used",
      tr lang
        "Title-attribut är inte tillgängliga på touch-enheter. Använd aria-label eller synlig text istället."
        "Title attributes are not accessible on touch devices. Use aria-label or visible text instead."⟩]
  else [])

/-- Strengths pushed by the accessibility analyzer, in check order. -/
def accStrengths (d : Doc) (lang : Lang) : List String :=
  (if ¬ (0 < d.imgNoAltAttr) ∧ 0 < d.totalImages then
    [tr lang ("Alla " ++ toString d.totalImages ++ " bilder har alt-attribut")
      ("All " ++ toString d.totalImages ++ " images have alt attribute")]
  else []) ++
  (if ¬ (d.h1Count = 0) ∧ ¬ (1 < d.h1Count) then
    [tr lang "Korrekt H1-struktur (exakt 1 H1)"
      "Correct H1 structure (exactly 1 H1)"]
  else []) ++
  (if ¬ (0 < d.inputsNoLabel) ∧ 0 < d.inputsCount then
    [tr lang "Alla formulärfält har korrekta etiketter"
      "All form fields have correct labels"]
  else []) ++
  (match d.htmlLang with
  | some v =>
    [tr lang ("Språkattribut är satt (" ++ v ++ ")")
      ("Language attribute is set (" ++ v ++ ")")]
  | none => []) ++
  (if d.hasMain then
    [tr lang "Huvudinnehåll markerat med <main>"
      "Main content marked with <main>"]
  else []) ++
  (if 0 < d.focusableCount then
    [tr lang
      (toString d.focusableCount ++ " navigerbara element för tangentbord")
      (toString d.focusableCount ++ " keyboard-focusable elements")]
  else [])

/-- The accessibility analyzer: run all checks, then clamp as the last
step (`score: Math.max(0, Math.min(100, score))`). -/
def analyzeAccessibilityEnhanced (d : Doc) (lang : Lang) :
    AccessibilityResults :=
  { score := clampScore (100 - accPenalty d)
    issues := accIssues d lang
    strengths := accStrengths d lang }

/-!
SEO analyzer (`analyzeSEOEnhanced`) and its auxiliary inputs.
-/

/-- Outcome of the robots.txt probe (`axios.get(origin + '/robots.txt',
{ validateStatus: s => s < 500 })`): the request either throws (network
error or a 5xx status) or resolves with a status and a body. -/
inductive RobotsProbe where
  | failed
  | ok (status200 : Bool) (hasDisallowAll : Bool)
deriving DecidableEq, Repr

/-- Whether the probe establishes robots.txt
(`hasRobotsTxt = robotsResponse.status === 200`). -/
def RobotsProbe.hasRobotsTxt : RobotsProbe → Bool
  | .failed => false
  | .ok s _ => s

/-- Whether the resolved body contains `Disallow: /` (checked inside the
try block, so only when the request resolved). -/
def RobotsProbe.disallowAll : RobotsProbe → Bool
  | .failed => false
  | .ok _ d => d

/-- Properties of the analyzed URL string read by the SEO checks. -/
structure UrlInfo where
  /-- Whether `url.startsWith('https://')`. -/
  isHttps : Bool
  urlLength : ℕ
  /-- Whether `urlObj.search.length > 0`. -/
  hasQuery : Bool
deriving DecidableEq, Repr

/-- Auxiliary inputs of the SEO analyzer: the two probes and the
requests-derived load speed. -/
structure SeoAux where
  robots : RobotsProbe
  /-- Status-200 flag of the `/sitemap.xml` request, `none` when it
  threw. -/
  sitemapFirst : Option Bool
  /-- Status-200 flag of the `/sitemap_index.xml` fallback, `none` when it
  threw; consulted only when the first request threw. -/
  sitemapAlt : Option Bool
  /-- Span of the simulated requests timestamps, in milliseconds. -/
  loadSpeedMs : ℕ
deriving DecidableEq, Repr

/-- The sitemap flag: the fallback request is attempted only when the
first request threw. -/
def hasSitemapOf (first alt : Option Bool) : Bool :=
  match first with
  | some b => b
  | none => alt.getD false

/-- Splits on whitespace runs (`title.toLowerCase().split(/\s+/)` on
trimmed input). -/
def splitWords (s : String) : List String :=
  (s.split fun c => c.isWhitespace).filter fun w => decide (w ≠ "")

/-- Whether some word longer than 3 characters occurs twice: matches the
source filter `titleWords.filter((word, index) => titleWords.indexOf(word)
!== index && word.length > 3).length > 0`, which flags a later occurrence
of a repeated word. -/
def hasDupLongWord : List String → Bool
  | [] => false
  | w :: ws => (decide (3 < w.length) && ws.contains w) || hasDupLongWord ws

/-- Renders `q.toFixed(1)` for the nonnegative values interpolated into
messages (rounding to the nearest tenth, half up). -/
def toFixed1 (q : ℚ) : String :=
  let t := jsRound (q * 10)
  toString (t / 10) ++ "." ++ toString (t % 10)

/-- Renders `q.toFixed(2)` for the nonnegative values interpolated into
messages. -/
def toFixed2 (q : ℚ) : String :=
  let t := jsRound (q * 100)
  toString (t / 100) ++ "." ++ (if t % 100 < 10 then "0" else "") ++
    toString (t % 100)

/-- Renders a number interpolated verbatim into a template string; exact
for integral values (no claim depends on the fractional rendering). -/
def numToString (q : ℚ) : String :=
  if q.den = 1 then toString q.num
  else toString q.num ++ "/" ++ toString q.den

/-- Technical metrics of the SEO result. -/
structure SEOTechnical where
  loadSpeed : ℚ
  mobileOptimized : Bool
  httpsEnabled : Bool
  hasRobotsTxt : Bool
  hasSitemap : Bool
deriving DecidableEq, Repr

/-- On-page metrics of the SEO result. -/
structure SEOOnPage where
  hasUniqueTitle : Bool
  hasMetaDescription : Bool
  hasH1 : Bool
  headerStructure : List String
  imagesWithAlt : ℕ
  totalImages : ℕ
deriving DecidableEq, Repr

/-- Result record of the SEO analyzer. -/
structure SEOResults where
  score : ℤ
  technical : SEOTechnical
  onPage : SEOOnPage
  issues : List Issue
deriving DecidableEq, Repr

/-- JS truthiness of the trimmed meta description
(`!metaDescription` catches both a missing attribute and an empty
string). -/
def Doc.metaTruthy (d : Doc) : Prop :=
  match d.metaDescription with
  | none => False
  | some s => s ≠ ""

instance (d : Doc) : Decidable d.metaTruthy := by
  unfold Doc.metaTruthy
  cases d.metaDescription <;> infer_instance

/-- Derived: `metaDescription?.length || 0`. -/
def Doc.metaDescLength (d : Doc) : ℕ :=
  (d.metaDescription.getD "").length

/-- Derived: the SEO check's `imagesWithoutAlt = totalImages -
imagesWithAlt`. -/
def Doc.seoImagesWithoutAlt (d : Doc) : ℕ :=
  d.totalImages - d.seoImagesWithAlt

/-- The viewport-misconfiguration condition
(`viewportContent && !viewportContent.includes('width=device-width')`). -/
def Doc.viewportMisconfigured (d : Doc) : Prop :=
  match d.viewportContent with
  | none => False
  | some c => c ≠ "" ∧ ¬ jsIncludes c "width=device-width"

instance (d : Doc) : Decidable d.viewportMisconfigured := by
  unfold Doc.viewportMisconfigured
  cases d.viewportContent <;> infer_instance

/-- Total of the sequential deductions of the SEO analyzer, in check
order (checks 1-16; checks that only push an informational issue
subtract nothing). -/
def seoPenalty (d : Doc) (u : UrlInfo) (aux : SeoAux) : ℤ :=
  (if ¬ u.isHttps then 15 else 0) +
  (if aux.robots.disallowAll then 8 else 0) +
  (if ¬ aux.robots.hasRobotsTxt then 3 else 0) +
  (if ¬ hasSitemapOf aux.sitemapFirst aux.sitemapAlt then 8 else 0) +
  (if 3000 < aux.loadSpeedMs then seoLoadSpeedPenalty aux.loadSpeedMs
    else 0) +
  (if d.title = "" then 20
    else if d.title.length < 30 then 8
    else if 60 < d.title.length then 5
    else 0) +
  (if ¬ d.metaTruthy then 12
    else if d.metaDescLength < 120 then 6
    else if 160 < d.metaDescLength then 4
    else 0) +
  (if d.h1Count = 0 then 15 else if 1 < d.h1Count then 8 else 0) +
  (if 0 < d.seoImagesWithoutAlt then
    seoImagesAltPenalty d.seoImagesWithoutAlt else 0) +
  (if 5 < d.totalImages ∧
      (d.imagesWithSrcset : ℚ) < (d.totalImages : ℚ) * (3 / 10)
    then 3 else 0) +
  (if ¬ d.hasViewportMeta then 15
    else if d.viewportMisconfigured then 8
    else 0) +
  (match d.canonical with
  | .missing => 4
  | .otherHost => 6
  | _ => 0) +
  (if ¬ (d.hasOgTitle ∧ d.hasOgDescription ∧ d.hasOgImage) then 5 else 0) +
  (if ¬ d.hasTwitterCard then 3 else 0) +
  (if ¬ d.hasJsonLd ∧ ¬ d.hasMicrodata then 8 else 0) +
  (if d.internalLinks < 3 then 7 else 0) +
  (if 100 < u.urlLength then 2 else 0) +
  (if d.wordCount < 300 then 10 else 0) +
  (if d.htmlLang = none then 5 else 0)

/-- Issues pushed by the SEO analyzer, in check order. -/
def seoIssues (d : Doc) (u : UrlInfo) (aux : SeoAux) (lang : Lang) :
    List Issue :=
  (if ¬ u.isHttps then
    [⟨.error,
      tr lang "Webbplatsen använder inte HTTPS"
        "The site does not use HTTPS",
      tr lang
        "Implementera SSL/TLS-certifikat (t.ex. via Let\x27s Encrypt). HTTPS är en rankingfaktor och ökar användarförtroendet."
        "Implement an SSL/TLS certificate (e.g., via Let\x27s Encrypt). HTTPS is a ranking factor and increases user trust."⟩]
  else []) ++
  (if aux.robots.disallowAll then
    [⟨.warning,
      tr lang "robots.txt blockerar möjligen viktiga resurser"
        "robots.txt may block important resources",
      tr lang
        "Granska robots.txt noga för att säkerställa att viktiga sidor inte blockeras från indexering."
        "Review robots.txt carefully to ensure important pages are not blocked from indexing."⟩]
  else []) ++
  (if ¬ aux.robots.hasRobotsTxt then
    [⟨.info,
      tr lang "robots.txt-fil saknas" "robots.txt file missing",
      tr lang
        "Skapa en robots.txt-fil för att styra sökbotars indexering och crawlbudget."
        "Create a robots.txt file to control search bot indexing and crawl budget."⟩]
  else []) ++
  (if ¬ hasSitemapOf aux.sitemapFirst aux.sitemapAlt then
    [⟨.warning,
      tr lang "XML-sitemap saknas" "XML sitemap missing",
      tr lang
        "Skapa en XML-sitemap och referera till den i robots.txt. Detta hjälper sökmotorer att hitta och indexera alla dina sidor."
        "Create an XML sitemap and reference it in robots.txt. This helps search engines find and index all your pages."⟩]
  else []) ++
  (if 3000 < aux.loadSpeedMs then
    [⟨.warning,
      tr lang
        ("Initial laddningstid är " ++
          toFixed1 ((aux.loadSpeedMs : ℚ) / 1000) ++ "s (mål < 3s)")
        ("Initial load time is " ++
          toFixed1 ((aux.loadSpeedMs : ℚ) / 1000) ++ "s (target < 3s)"),
      tr lang
        "Optimera bilder, minimera CSS/JS, använd CDN och aktivera caching för snabbare laddning."
        "Optimize images, minify CSS/JS, use a CDN and enable caching for faster loading."⟩]
  else []) ++
  (if d.title = "" then
    [⟨.error,
      tr lang "Sidrubrik (title-tagg) saknas helt"
        "Page title (title tag) is missing",
      tr lang
        "Lägg till en unik, beskrivande title-tagg (50-60 tecken) som inkluderar viktiga sökord."
        "Add a unique, descriptive title tag (50-60 characters) that includes important keywords."⟩]
  else
    (if d.title.length < 30 then
      [⟨.warning,
        tr lang
          ("Title-taggen är kort (" ++ toString d.title.length ++
            " tecken, rekommenderat: 50-60)")
          ("Title is short (" ++ toString d.title.length ++
            " characters, recommended: 50-60)"),
        tr lang
          "Utöka title-taggen med mer beskrivande innehåll och relevanta sökord."
          "Expand the title tag with more descriptive content and relevant keywords."⟩]
    else if 60 < d.title.length then
      [⟨.warning,
        tr lang
          ("Title-taggen är lång (" ++ toString d.title.length ++
            " tecken, rekommenderat: 50-60)")
          ("Title is long (" ++ toString d.title.length ++
            " characters, recommended: 50-60)"),
        tr lang
          "Korta ner title-taggen så den inte kapas i sökresultaten. Prioritera viktiga ord först."
          "Shorten the title tag so it does not get truncated in search results. Prioritize important words first."⟩]
    else []) ++
    (if hasDupLongWord (splitWords (jsToLower d.title)) then
      [⟨.info,
        tr lang "Title-taggen innehåller upprepade ord"
          "Title contains repeated words",
        tr lang
          "Undvik onödig upprepning av ord i title-taggen för bättre effektivitet."
          "Avoid unnecessary word repetition in the title tag for better efficiency."⟩]
    else [])) ++
  (if ¬ d.metaTruthy then
    [⟨.error,
      tr lang "Meta description saknas" "Meta description is missing",
      tr lang
        "Skapa en lockande meta description (150-160 tecken) som sammanfattar sidans innehåll och inkluderar en call-to-action."
        "Create a compelling meta description (150-160 characters) that summarizes the page content and includes a call-to-action."⟩]
  else if d.metaDescLength < 120 then
    [⟨.warning,
      tr lang
        ("Meta description är kort (" ++ toString d.metaDescLength ++
          " tecken, rekommenderat: 150-160)")
        ("Meta description is short (" ++ toString d.metaDescLength ++
          " characters, recommended: 150-160)"),
      tr lang
        "Utöka meta description med mer information och fördelar för att öka klickfrekvensen."
        "Expand the meta description with more information and benefits to increase click-through rate."⟩]
  else if 160 < d.metaDescLength then
    [⟨.warning,
      tr lang
        ("Meta description är lång (" ++ toString d.metaDescLength ++
          " tecken, rekommenderat: 150-160)")
        ("Meta description is long (" ++ toString d.metaDescLength ++
          " characters, recommended: 150-160)"),
      tr lang
        "Korta ner meta description så den inte kapas i sökresultaten."
        "Shorten the meta description so it does not get truncated in search results."⟩]
  else []) ++
  (if d.h1Count = 0 then
    [⟨.error,
      tr lang "Ingen H1-rubrik på sidan" "No H1 heading on page",
      tr lang
        "Lägg till en H1-rubrik som beskriver sidans huvudinnehåll. Detta är kritiskt för SEO."
        "Add an H1 heading that describes the main content. This is critical for SEO."⟩]
  else if 1 < d.h1Count then
    [⟨.warning,
      tr lang ("Flera H1-rubriker hittades (" ++ toString d.h1Count ++ " st)")
        ("Multiple H1 headings found (" ++ toString d.h1Count ++ ")"),
      tr lang
        "Använd endast en H1-rubrik per sida. Använd H2-H6 för underrubriker."
        "Use only one H1 heading per page. Use H2-H6 for subheadings."⟩]
  else []) ++
  (if d.h1Text ≠ "" ∧ d.title ≠ "" ∧ jsToLower d.h1Text = jsToLower d.title
    then
    [⟨.info,
      tr lang "H1 och title-tagg är identiska"
        "H1 and title tag are identical",
      tr lang
        "Överväg att variera formuleringen mellan H1 och title för att fånga fler sökord."
        "Consider varying the wording between H1 and title to capture more keywords."⟩]
  else []) ++
  (if 0 < d.seoImagesWithoutAlt then
    [⟨.warning,
      tr lang
        (toString d.seoImagesWithoutAlt ++ " av " ++
          toString d.totalImages ++ " bilder saknar beskrivande alt-text")
        (toString d.seoImagesWithoutAlt ++ " of " ++
          toString d.totalImages ++ " images missing descriptive alt text"),
      tr lang
        "Lägg till beskrivande alt-text på alla bilder för bättre SEO och tillgänglighet."
        "Add descriptive alt text to all images for better SEO and accessibility."⟩]
  else []) ++
  (if 5 < d.totalImages ∧
      (d.imagesWithSrcset : ℚ) < (d.totalImages : ℚ) * (3 / 10) then
    [⟨.info,
      tr lang "Få bilder använder responsiva bilder (srcset)"
        "Few images use responsive images (srcset)",
      tr lang
        "Använd srcset för att servera olika bildstorlekar baserat på enhetens skärmstorlek."
        "Use srcset to serve different image sizes based on device screen size."⟩]
  else []) ++
  (if ¬ d.hasViewportMeta then
    [⟨.error,
      tr lang "Viewport meta-tagg saknas" "Viewport meta tag is missing",
      tr lang
        "Lägg till <meta name=\"viewport\" content=\"width=device-width, initial-scale=1\"> för mobilanpassning."
        "Add <meta name=\"viewport\" content=\"width=device-width, initial-scale=1\"> for mobile optimization."⟩]
  else if d.viewportMisconfigured then
    [⟨.warning,
      tr lang "Viewport meta-tagg har inte optimal konfiguration"
        "Viewport meta tag is not optimally configured",
      tr lang
        "Säkerställ att viewport content inkluderar \"width=device-width\"."
        "Ensure that viewport content includes \"width=device-width\"."⟩]
  else []) ++
  (match d.canonical with
  | .missing =>
    [⟨.info,
      tr lang "Canonical URL saknas" "Canonical URL is missing",
      tr lang
        "Lägg till canonical URL för att undvika duplicerat innehåll och konsolidera ranking-signaler."
        "Add a canonical URL to avoid duplicate content and consolidate ranking signals."⟩]
  | .otherHost =>
    [⟨.warning,
      tr lang "Canonical URL pekar på annan domän"
        "Canonical URL points to another domain",
      tr lang
        "Kontrollera att canonical URL är korrekt konfigurerad."
        "Check that the canonical URL is correctly configured."⟩]
  | _ => []) ++
  (if ¬ (d.hasOgTitle ∧ d.hasOgDescription ∧ d.hasOgImage) then
    [⟨.info,
      tr lang "Open Graph-taggar saknas eller ofullständiga"
        "Open Graph tags missing or incomplete",
      tr lang
        "Lägg till Open Graph-taggar (og:title, og:description, og:image) för bättre delning på sociala medier."
        "Add Open Graph tags (og:title, og:description, og:image) for better social media sharing."⟩]
  else []) ++
  (if ¬ d.hasTwitterCard then
    [⟨.info,
      tr lang "Twitter Card-metadata saknas"
        "Twitter Card metadata is missing",
      tr lang
        "Lägg till Twitter Card-metadata för optimerade delningar på Twitter/X."
        "Add Twitter Card metadata for optimized sharing on Twitter/X."⟩]
  else []) ++
  (if ¬ d.hasJsonLd ∧ ¬ d.hasMicrodata then
    [⟨.warning,
      tr lang "Strukturerad data saknas (Schema.org)"
        "Structured data missing (Schema.org)",
      tr lang
        "Implementera JSON-LD structured data för rich snippets i sökresultaten (t.ex. Organization, Article, Product)."
        "Implement JSON-LD structured data for rich snippets in search results (e.g., Organization, Article, Product)."⟩]
  else []) ++
  (if d.internalLinks < 3 then
    [⟨.warning,
      tr lang ("Få interna länkar (" ++ toString d.internalLinks ++ " st)")
        ("Few internal links (" ++ toString d.internalLinks ++ ")"),
      tr lang
        "Lägg till fler interna länkar för att förbättra navigering och distribuera \"link juice\"."
        "Add more internal links to improve navigation and distribute \"link juice\"."⟩]
  else []) ++
  (if 100 < u.urlLength then
    [⟨.info,
      tr lang "URL:en är lång" "The URL is long",
      tr lang
        "Kortare, beskrivande URL:er är lättare att dela och bättre för SEO."
        "Shorter, descriptive URLs are easier to share and better for SEO."⟩]
  else []) ++
  (if u.hasQuery then
    [⟨.info,
      tr lang "URL innehåller query-parametrar"
        "URL contains query parameters",
      tr lang
        "Använd URL rewriting för att skapa rena, SEO-vänliga URL:er när det är möjligt."
        "Use URL rewriting to create clean, SEO-friendly URLs when possible."⟩]
  else []) ++
  (if d.wordCount < 300 then
    [⟨.warning,
      tr lang
        ("Lite textinnehåll (" ++ toString d.wordCount ++
          " ord, rekommenderat: 300+)")
        ("Low text content (" ++ toString d.wordCount ++
          " words, recommended: 300+)"),
      tr lang
        "Lägg till mer unikt, relevant innehåll. Längre innehåll tenderar att ranka bättre."
        "Add more unique, relevant content. Longer content tends to rank better."⟩]
  else []) ++
  (if d.htmlLang = none then
    [⟨.warning,
      tr lang "Språkdeklaration saknas i HTML"
        "Language declaration missing in HTML",
      tr lang
        "Lägg till lang-attribut (t.ex. lang=\"sv\") på <html>-taggen."
        "Add a lang attribute (e.g., lang=\"en\") on the <html> tag."⟩]
  else []) ++
  (if ¬ d.hasHreflang ∧ d.htmlLang ≠ none then
    [⟨.info,
      tr lang "Hreflang-taggar saknas" "Hreflang tags missing",
      tr lang
        "Om du har internationella versioner, använd hreflang-taggar för att ange språk- och regionvarianter."
        "If you have international versions, use hreflang tags to specify language and regional variants."⟩]
  else [])

/-- The SEO analyzer: run all checks, clamp the score as the last local
step, and return the technical/on-page metrics. -/
def analyzeSEOEnhanced (d : Doc) (u : UrlInfo) (aux : SeoAux)
    (lang : Lang) : SEOResults :=
  { score := clampScore (100 - seoPenalty d u aux)
    technical :=
      { loadSpeed := (aux.loadSpeedMs : ℚ) / 1000
        mobileOptimized := d.hasViewportMeta
        httpsEnabled := u.isHttps
        hasRobotsTxt := aux.robots.hasRobotsTxt
        hasSitemap := hasSitemapOf aux.sitemapFirst aux.sitemapAlt }
    onPage :=
      { hasUniqueTitle := decide (d.title ≠ "")
        hasMetaDescription := decide d.metaTruthy
        hasH1 := decide (0 < d.h1Count)
        headerStructure := d.headerStructure
        imagesWithAlt := d.seoImagesWithAlt
        totalImages := d.totalImages }
    issues := seoIssues d u aux lang }

/-!
Design analyzer (`analyzeDesignEnhanced`).
-/

/-- Color-contrast summary of the design result; the ratio is a constant
placeholder (`ratio: 4.5`), never measured. -/
structure ColorContrast where
  sufficient : Bool
  ratio : ℚ
deriving DecidableEq, Repr

/-- Typography summary of the design result. -/
structure Typography where
  readable : Bool
  hierarchy : Bool
deriving DecidableEq, Repr

/-- Navigation summary of the design result. -/
structure NavigationInfo where
  clear : Bool
  accessible : Bool
deriving DecidableEq, Repr

/-- Result record of the design analyzer. -/
structure DesignResults where
  score : ℤ
  responsive : Bool
  loadTime : ℚ
  colorContrast : ColorContrast
  typography : Typography
  navigation : NavigationInfo
  issues : List Issue
deriving DecidableEq, Repr

/-- The zoom-blocking condition (`viewportContent &&
viewportContent.includes('user-scalable=no')`). -/
def Doc.viewportBlocksZoom (d : Doc) : Prop :=
  match d.viewportContent with
  | none => False
  | some c => c ≠ "" ∧ jsIncludes c "user-scalable=no"

instance (d : Doc) : Decidable d.viewportBlocksZoom := by
  unfold Doc.viewportBlocksZoom
  cases d.viewportContent <;> infer_instance

/-- Derived: the typography hierarchy flag
(`$('h1, h2, h3').length > 2`). -/
def Doc.typoHierarchy (d : Doc) : Prop :=
  2 < d.h1Count + d.h2Count + d.h3Count

instance (d : Doc) : Decidable d.typoHierarchy := by
  unfold Doc.typoHierarchy
  infer_instance

/-- Derived: average paragraph text length (0 when there are no
paragraphs). -/
def Doc.avgTextLength (d : Doc) : ℚ :=
  if 0 < d.paragraphCount then (d.paragraphChars : ℚ) / d.paragraphCount
  else 0

/-- Total of the sequential deductions of the design analyzer, in check
order. -/
def designPenalty (d : Doc) (loadTimeMs : ℕ) : ℤ :=
  (if ¬ d.hasViewportMeta then 20
    else if d.viewportBlocksZoom then 8
    else 0) +
  (if 5 < d.totalImages ∧
      (d.respImages : ℚ) < (d.totalImages : ℚ) * (3 / 10) then 5 else 0) +
  (if 5000 < loadTimeMs then designLoadVerySlowPenalty loadTimeMs
    else if 3000 < loadTimeMs then designLoadSlowPenalty loadTimeMs
    else 0) +
  (if 3 < d.externalCSS then 3 else 0) +
  (if 5 < d.externalScripts then 3 else 0) +
  (if 10 < d.wideContainers then 3 else 0) +
  (if ¬ d.typoHierarchy then 10 else 0) +
  (if 0 < d.tinyTextCount then 7 else 0) +
  (if ¬ (0 < d.navCount) then 15 else if 15 < d.navLinks then 4 else 0) +
  (if d.hasViewportMeta ∧ ¬ d.hasMobileMenu ∧ 5 < d.navLinks then 8
    else 0) +
  (if 0 < d.lightTextOnLight then 10 else 0) +
  (if ¬ d.hasSections then 4 else 0) +
  (if 3 < d.headersNoMargin then 3 else 0) +
  (if d.designButtons = 0 then 12
    else if d.primaryCTAs = 0 ∧ 0 < d.designButtons then 5
    else 0) +
  (if 5 < d.totalImages ∧
      (d.lazyImages : ℚ) < (d.totalImages : ℚ) * (1 / 2) then 4 else 0) +
  (if 0 < d.designImagesNoAlt then designImagesAltPenalty d.designImagesNoAlt
    else 0) +
  (if 0 < d.formsCount ∧ 0 < d.designInputsNoLabel then 8 else 0) +
  (if 0 < d.formsCount ∧ ¬ d.hasValidationAttrs ∧ 2 < d.allInputsCount
    then 4 else 0) +
  (if ¬ d.hasFooter then 5 else 0) +
  (if ¬ d.hasFavicon then 3 else 0)

/-- Issues pushed by the design analyzer, in check order. -/
def designIssues (d : Doc) (loadTimeMs : ℕ) (lang : Lang) : List Issue :=
  (if ¬ d.hasViewportMeta then
    [⟨.error,
      tr lang "Webbplatsen saknar viewport meta-tagg"
        "The site lacks a viewport meta tag",
      tr lang
        "Lägg till <meta name=\"viewport\" content=\"width=device-width, initial-scale=1\"> för responsiv design."
        "Add <meta name=\"viewport\" content=\"width=device-width, initial-scale=1\"> for responsive design."⟩]
  else if d.viewportBlocksZoom then
    [⟨.warning,
      tr lang "Viewport blockerar zoom (user-scalable=no)"
        "Viewport blocks zoom (user-scalable=no)",
      tr lang "Tillåt användare att zooma för bättre tillgänglighet."
        "Allow users to zoom for better accessibility."⟩]
  else []) ++
  (if 5 < d.totalImages ∧
      (d.respImages : ℚ) < (d.totalImages : ℚ) * (3 / 10) then
    [⟨.info,
      tr lang "Få bilder är responsiva" "Few images are responsive",
      tr lang "Använd srcset och picture-element för responsiva bilder."
        "Use srcset and picture elements for responsive images."⟩]
  else []) ++
  (if 5000 < loadTimeMs then
    [⟨.error,
      tr lang
        ("Initial laddningstid är mycket hög: " ++
          toFixed1 ((loadTimeMs : ℚ) / 1000) ++ "s")
        ("Initial load time is very high: " ++
          toFixed1 ((loadTimeMs : ℚ) / 1000) ++ "s"),
      tr lang
        "Kritisk prestandaförbättring behövs: komprimera bilder, minimera CSS/JS, använd lazy loading och CDN."
        "Critical performance improvement needed: compress images, minify CSS/JS, use lazy loading and CDN."⟩]
  else if 3000 < loadTimeMs then
    [⟨.warning,
      tr lang
        ("Laddningstiden är " ++ toFixed1 ((loadTimeMs : ℚ) / 1000) ++
          "s (mål < 3s)")
        ("Load time is " ++ toFixed1 ((loadTimeMs : ℚ) / 1000) ++
          "s (target < 3s)"),
      tr lang
        "Optimera bilder (WebP-format), minimera och sammanfoga CSS/JS-filer, använd browser caching."
        "Optimize images (WebP format), minify and combine CSS/JS files, use browser caching."⟩]
  else []) ++
  (if 3 < d.externalCSS then
    [⟨.info,
      tr lang (toString d.externalCSS ++ " externa CSS-filer hittades")
        (toString d.externalCSS ++ " external CSS files found"),
      tr lang
        "Sammanfoga CSS-filer och inline kritisk CSS för snabbare rendering."
        "Combine CSS files and inline critical CSS for faster rendering."⟩]
  else []) ++
  (if 5 < d.externalScripts then
    [⟨.info,
      tr lang
        (toString d.externalScripts ++ " externa JavaScript-filer hittades")
        (toString d.externalScripts ++ " external JavaScript files found"),
      tr lang
        "Sammanfoga JS-filer, använd async/defer-attribut och lazy-load icke-kritiska scripts."
        "Combine JS files, use async/defer attributes and lazy-load non-critical scripts."⟩]
  else []) ++
  (if 10 < d.wideContainers then
    [⟨.info,
      tr lang "Textblock kan vara för breda" "Text blocks may be too wide",
      tr lang
        "Begränsa textbredd till 60-80 tecken per rad (max-width: 65ch) för optimal läsbarhet."
        "Limit text width to 60-80 characters per line (max-width: 65ch) for optimal readability."⟩]
  else []) ++
  (if ¬ d.typoHierarchy then
    [⟨.warning,
      tr lang "Svag typografisk hierarki" "Weak typographic hierarchy",
      tr lang
        "Använd rubriker (H1-H6) konsekvent för att skapa tydlig visuell hierarki."
        "Use headings (H1-H6) consistently to create a clear visual hierarchy."⟩]
  else []) ++
  (if 0 < d.tinyTextCount then
    [⟨.warning,
      tr lang "För liten text upptäckt (< 12px)"
        "Small text detected (< 12px)",
      tr lang "Använd minst 16px för body-text för god läsbarhet."
        "Use at least 16px for body text for good readability."⟩]
  else []) ++
  (if ¬ (0 < d.navCount) then
    [⟨.warning,
      tr lang "Ingen tydlig huvudnavigation hittades"
        "No clear main navigation found",
      tr lang
        "Lägg till en <nav>-element för huvudnavigation. Använd semantic HTML."
        "Add a <nav> element for main navigation. Use semantic HTML."⟩]
  else if 15 < d.navLinks then
    [⟨.info,
      tr lang ("Många navigationslänkar (" ++ toString d.navLinks ++ " st)")
        ("Many navigation links (" ++ toString d.navLinks ++ ")"),
      tr lang
        "Överväg att gruppera länkar i dropdown-menyer eller kategorier för bättre översikt."
        "Consider grouping links in dropdown menus or categories for better overview."⟩]
  else []) ++
  (if d.hasViewportMeta ∧ ¬ d.hasMobileMenu ∧ 5 < d.navLinks then
    [⟨.warning,
      tr lang "Ingen mobilmeny upptäckt" "No mobile menu detected",
      tr lang
        "Implementera en mobilanpassad navigationslösning (hamburger-meny) för bättre användarupplevelse."
        "Implement a mobile-friendly navigation solution (hamburger menu) for better UX."⟩]
  else []) ++
  (if 0 < d.lightTextOnLight then
    [⟨.warning,
      tr lang "Potentiella kontrastproblem (ljus text på ljus bakgrund)"
        "Potential contrast issues (light text on light background)",
      tr lang
        "Kontrollera färgkontrast manuellt - WCAG kräver minst 4.5:1 för normal text."
        "Manually check color contrast - WCAG requires at least 4.5:1 for normal text."⟩]
  else []) ++
  (if ¬ d.hasSections then
    [⟨.info,
      tr lang "Begränsad innehållsstrukturering" "Limited content structuring",
      tr lang
        "Använd <section> och <article> för att strukturera innehåll semantiskt."
        "Use <section> and <article> to structure content semantically."⟩]
  else []) ++
  (if 3 < d.headersNoMargin then
    [⟨.info,
      tr lang "Rubriker saknar spacing" "Headings lack spacing",
      tr lang
        "Lägg till konsekvent spacing runt rubriker för bättre visuell hierarki."
        "Add consistent spacing around headings for better visual hierarchy."⟩]
  else []) ++
  (if d.designButtons = 0 then
    [⟨.warning,
      tr lang "Inga knappar eller CTA:er hittades" "No buttons or CTAs found",
      tr lang
        "Lägg till tydliga call-to-action-knappar för att guida användare till viktiga åtgärder."
        "Add clear call-to-action buttons to guide users to important actions."⟩]
  else if d.primaryCTAs = 0 ∧ 0 < d.designButtons then
    [⟨.info,
      tr lang "Inga primära CTA:er identifierade" "No primary CTAs identified",
      tr lang "Markera viktiga åtgärder visuellt med primära knappstilar."
        "Mark important actions visually with primary button styles."⟩]
  else []) ++
  (if 5 < d.totalImages ∧
      (d.lazyImages : ℚ) < (d.totalImages : ℚ) * (1 / 2) then
    [⟨.info,
      tr lang "Få bilder använder lazy loading" "Few images use lazy loading",
      tr lang
        "Lägg till loading=\"lazy\" på bilder nedanför fold för bättre prestanda."
        "Add loading=\"lazy\" on images below the fold for better performance."⟩]
  else []) ++
  (if 0 < d.designImagesNoAlt then
    [⟨.warning,
      tr lang (toString d.designImagesNoAlt ++ " bilder saknar alt-text")
        (toString d.designImagesNoAlt ++ " images missing alt text"),
      tr lang "Alt-text förbättrar både tillgänglighet och SEO."
        "Alt text improves both accessibility and SEO."⟩]
  else []) ++
  (if 0 < d.formsCount ∧ 0 < d.designInputsNoLabel then
    [⟨.warning,
      tr lang
        (toString d.designInputsNoLabel ++ " formulärfält saknar etiketter")
        (toString d.designInputsNoLabel ++ " form fields missing labels"),
      tr lang
        "Lägg till tydliga etiketter på alla formulärfält för bättre UX."
        "Add clear labels to all form fields for better UX."⟩]
  else []) ++
  (if 0 < d.formsCount ∧ ¬ d.hasValidationAttrs ∧ 2 < d.allInputsCount then
    [⟨.info,
      tr lang "Formulär saknar HTML5-validering" "Forms lack HTML5 validation",
      tr lang
        "Använd HTML5-validering (required, pattern, etc.) för bättre användarupplevelse."
        "Use HTML5 validation (required, pattern, etc.) for better user experience."⟩]
  else []) ++
  (if ¬ d.hasFooter then
    [⟨.info,
      tr lang "Ingen footer upptäckt" "No footer detected",
      tr lang
        "Lägg till en footer med kontaktinformation, länkar och copyright."
        "Add a footer with contact information, links and copyright."⟩]
  else []) ++
  (if ¬ d.hasFavicon then
    [⟨.info,
      tr lang "Ingen favicon hittades" "No favicon found",
      tr lang
        "Lägg till en favicon för bättre varumärkesigenkänning i flikar och bokmärken."
        "Add a favicon for better brand recognition in tabs and bookmarks."⟩]
  else [])

/-- The design analyzer: run all checks, clamp the score as the last
step, and return the summary records (the contrast ratio is the constant
4.5 and `sufficient` is cleared exactly by the white-on-light
heuristic). -/
def analyzeDesignEnhanced (d : Doc) (loadTimeMs : ℕ) (lang : Lang) :
    DesignResults :=
  { score := clampScore (100 - designPenalty d loadTimeMs)
    responsive := d.hasViewportMeta
    loadTime := (loadTimeMs : ℚ) / 1000
    colorContrast :=
      { sufficient := if 0 < d.lightTextOnLight then false else true
        ratio := 4.5 }
    typography :=
      { readable := decide (d.avgTextLength < 1000)
        hierarchy := decide d.typoHierarchy }
    navigation :=
      { clear := decide (0 < d.navCount)
        accessible := decide (0 < d.navLinks) && decide (0 < d.navCount) }
    issues := designIssues d loadTimeMs lang }

/-!
External audit signal (`LighthouseSummary` of `lighthouseService.ts`) and
the blending performed by `analyzeWebsite` in deep mode.
-/

/-- The summary returned by `fetchLighthouseFromPSI` (fields absent when
the corresponding audit value is missing). -/
structure LighthouseSummary where
  performanceScore : Option ℚ
  accessibilityScore : Option ℚ
  lcpSeconds : Option ℚ
  fcpSeconds : Option ℚ
  cls : Option ℚ
  tbtMs : Option ℚ
  tiSeconds : Option ℚ
  speedIndexSeconds : Option ℚ
  mobileOptimized : Option Bool
  auditsFlags : List Issue
deriving DecidableEq, Repr

/-- Accessibility blending: `Math.round(score * 0.6 +
lh.accessibilityScore * 0.4)` when the audit accessibility score is
present (the exact rational value of `0.6 s + 0.4 a` over integer inputs
is never a half-integer, so rounding over the rationals agrees with the
double computation). -/
def blendAcc (acc : AccessibilityResults) (lh : LighthouseSummary) :
    AccessibilityResults :=
  match lh.accessibilityScore with
  | some a =>
    { acc with
      score := jsRound ((acc.score : ℚ) * (6 / 10) + a * (4 / 10)) }
  | none => acc

/-- The LCP issue appended during blending (Error severity above 4s,
Warning above 2.5s). -/
def lcpIssue (lang : Lang) (l : ℚ) : Issue :=
  ⟨if 4 < l then .error else .warning,
   tr lang ("LCP är " ++ toFixed1 l ++ "s") ("LCP is " ++ toFixed1 l ++ "s"),
   tr lang "Optimera bilder och render-blockerande resurser."
     "Optimize images and render-blocking resources."⟩

/-- LCP blending: above 2.5s subtract 5 (10 above 4s) floored at 0 and
append the issue; whenever an LCP value is present, raise the recorded
load-speed metric to `Math.max(loadSpeed, lh.lcpSeconds)`. -/
def blendSeoLcp (seo : SEOResults) (lh : LighthouseSummary) (lang : Lang) :
    SEOResults :=
  match lh.lcpSeconds with
  | some l =>
    let seo1 :=
      if 5 / 2 < l then
        { seo with
          score := max 0 (seo.score - (if 4 < l then 10 else 5))
          issues := seo.issues ++ [lcpIssue lang l] }
      else seo
    { seo1 with
      technical :=
        { seo1.technical with
          loadSpeed := max seo1.technical.loadSpeed l } }
  | none => seo

/-- Total-Blocking-Time blending: above 600ms append an Error issue and
subtract 10, floored at 0. -/
def blendSeoTbt (seo : SEOResults) (lh : LighthouseSummary) (lang : Lang) :
    SEOResults :=
  match lh.tbtMs with
  | some t =>
    if 600 < t then
      { seo with
        issues := seo.issues ++
          [⟨.error,
            tr lang ("Total Blocking Time är " ++ numToString t ++ "ms")
              ("Total Blocking Time is " ++ numToString t ++ "ms"),
            tr lang
              "Minska JS-arbete på huvudtråden; använd code-splitting."
              "Reduce main-thread JS; use code splitting."⟩]
        score := max 0 (seo.score - 10) }
    else seo
  | none => seo

/-- CLS blending: above 0.25 append a Warning design issue and subtract
10, floored at 0. -/
def blendDesCls (des : DesignResults) (lh : LighthouseSummary)
    (lang : Lang) : DesignResults :=
  match lh.cls with
  | some c =>
    if 1 / 4 < c then
      { des with
        issues := des.issues ++
          [⟨.warning,
            tr lang ("CLS är " ++ toFixed2 c) ("CLS is " ++ toFixed2 c),
            tr lang "Reservera utrymme för media / set aspect-ratio."
              "Reserve space for media / set aspect-ratio."⟩]
        score := max 0 (des.score - 10) }
    else des
  | none => des

/-- Speed-Index blending: above 4s append an informational design issue
(no deduction; the message is not localized in the source). -/
def blendDesSpeedIndex (des : DesignResults) (lh : LighthouseSummary)
    (lang : Lang) : DesignResults :=
  match lh.speedIndexSeconds with
  | some s =>
    if 4 < s then
      { des with
        issues := des.issues ++
          [⟨.info, "Speed Index " ++ toFixed1 s ++ "s",
            tr lang "Optimera resursladdning och cachning."
              "Optimize resource loading and caching."⟩] }
    else des
  | none => des

/-- Mobile blending: when the audit reports mobile-unfriendly
(`lh.mobileOptimized === false`) append an SEO Error issue. -/
def blendSeoMobile (seo : SEOResults) (lh : LighthouseSummary)
    (lang : Lang) : SEOResults :=
  if lh.mobileOptimized = some false then
    { seo with
      issues := seo.issues ++
        [⟨.error,
          tr lang "Viewport-meta saknas/ogiltig enligt Lighthouse"
            "Viewport meta missing/invalid per Lighthouse",
          tr lang "Lägg till korrekt viewport-meta för mobil."
            "Add a correct viewport meta for mobile."⟩] }
  else seo

/-- Destination category of a pre-formatted audit flag. -/
inductive FlagBucket where
  | design
  | seo
  | accessibility
deriving DecidableEq, Repr

/-- Routing of an audit flag by keyword
(`/contrast|layout|cls|lcp|speed|blocking|interactive/i` and a `cls`
sub-test, both case-insensitive). -/
def flagBucket (msg : String) : FlagBucket :=
  let m := jsToLower msg
  if jsIncludes m "contrast" || jsIncludes m "layout" || jsIncludes m "cls" ||
      jsIncludes m "lcp" || jsIncludes m "speed" || jsIncludes m "blocking" ||
      jsIncludes m "interactive" then
    if jsIncludes m "cls" then .design else .seo
  else .accessibility

/-- Append each audit flag to exactly one category, in flag order. -/
def routeFlags (acc : AccessibilityResults) (seo : SEOResults)
    (des : DesignResults) (flags : List Issue) :
    AccessibilityResults × SEOResults × DesignResults :=
  ({ acc with
      issues := acc.issues ++
        flags.filter fun f => decide (flagBucket f.message = .accessibility) },
   { seo with
      issues := seo.issues ++
        flags.filter fun f => decide (flagBucket f.message = .seo) },
   { des with
      issues := des.issues ++
        flags.filter fun f => decide (flagBucket f.message = .design) })

/-- The whole audit blending of `analyzeWebsite`, in source order. -/
def blendLighthouse (acc : AccessibilityResults) (seo : SEOResults)
    (des : DesignResults) (lh : LighthouseSummary) (lang : Lang) :
    AccessibilityResults × SEOResults × DesignResults :=
  let acc := blendAcc acc lh
  let seo := blendSeoLcp seo lh lang
  let seo := blendSeoTbt seo lh lang
  let des := blendDesCls des lh lang
  let des := blendDesSpeedIndex des lh lang
  let seo := blendSeoMobile seo lh lang
  routeFlags acc seo des lh.auditsFlags

/-!
Overview summarizer (`generateSummary`) and the composed
`analyzeWebsite`.
-/

/-- An `{area, score}` pair of the summary's strongest/weakest
computation. -/
structure AreaScore where
  area : String
  score : ℤ
deriving DecidableEq, Repr

/-- The narrative summary: strongest/weakest area by stable descending
sort of the three scores, critical-issue count, and locale-specific tier
templates selected on `overallScore` thresholds 85/70/50. -/
def generateSummary (overallScore : ℤ) (acc : AccessibilityResults)
    (seo : SEOResults) (des : DesignResults) (lang : Lang) : String :=
  let scores := sortDesc (fun a : AreaScore => a.score)
    [⟨tr lang "tillgänglighet" "accessibility", acc.score⟩,
     ⟨"SEO", seo.score⟩,
     ⟨"design & UX", des.score⟩]
  let strongest := scores.getD 0 ⟨"", 0⟩
  let weakest := scores.getD 2 ⟨"", 0⟩
  let criticalIssues : ℕ :=
    (acc.issues.filter fun i => decide (i.type = .error)).length +
      (seo.issues.filter fun i => decide (i.type = .error)).length +
      (des.issues.filter fun i => decide (i.type = .error)).length
  match lang with
  | .en =>
    if 85 ≤ overallScore then
      "Impressive! Your website performs excellently with " ++
        toString overallScore ++ "/100 points. " ++
        "Particularly strong in " ++ strongest.area ++ " (" ++
        toString strongest.score ++ "/100). " ++
        (if weakest.score < 75 then
          "By focusing on " ++ weakest.area ++
            ", you can reach even higher levels of excellence."
        else
          "Keep up the great work and follow our recommendations to maintain top quality.")
    else if 70 ≤ overallScore then
      "Good results! Your website scores " ++ toString overallScore ++
        "/100 with a solid foundation. " ++ strongest.area ++
        " is your strongest area (" ++ toString strongest.score ++
        "/100). " ++
        (if 0 < criticalIssues then
          "There are " ++ toString criticalIssues ++
            " critical issues that should be prioritized to improve user experience and search visibility."
        else
          "By improving " ++ weakest.area ++
            ", you can reach top level and increase both conversions and rankings.")
    else if 50 ≤ overallScore then
      "Acceptable but with potential! Your website scores " ++
        toString overallScore ++ "/100. " ++ strongest.area ++
        " performs relatively well (" ++ toString strongest.score ++
        "/100), but " ++ weakest.area ++ " needs attention (" ++
        toString weakest.score ++ "/100). " ++
        (if 3 < criticalIssues then
          toString criticalIssues ++
            " critical issues significantly affect UX and SEO. Prioritize these for quick gains."
        else
          "Focused improvements across accessibility, SEO and design will yield noticeable results for users and search engines.")
    else
      "Major improvements needed. Your website scores " ++
        toString overallScore ++
        "/100 and needs a comprehensive review. " ++
        (if 5 < criticalIssues then
          toString criticalIssues ++
            " critical issues negatively impact UX, accessibility and search visibility. "
        else "") ++
        "While there are challenges, the potential is significant — systematic improvements will deliver strong results. " ++
        "We recommend starting with our prioritized actions for quick wins."
  | .sv =>
    if 85 ≤ overallScore then
      "Imponerande! Din webbplats presterar excellent med " ++
        toString overallScore ++ "/100 poäng. " ++
        "Särskilt stark inom " ++ strongest.area ++ " (" ++
        toString strongest.score ++ "/100). " ++
        (if weakest.score < 75 then
          "Genom att fokusera på " ++ weakest.area ++
            " kan du nå ännu högre nivåer av excellence."
        else
          "Fortsätt med det goda arbetet och följ våra rekommendationer för att bibehålla toppkvalitet.")
    else if 70 ≤ overallScore then
      "Bra resultat! Din webbplats når " ++ toString overallScore ++
        "/100 poäng med solid grund. " ++ strongest.area ++
        " är din starkaste sida (" ++ toString strongest.score ++
        "/100). " ++
        (if 0 < criticalIssues then
          "Det finns " ++ toString criticalIssues ++
            " kritiska problem som bör åtgärdas prioritet för att förbättra användarupplevelsen och söksynligheten."
        else
          "Genom att förbättra " ++ weakest.area ++
            " kan du nå toppnivå och öka både konverteringar och sökrankningar.")
    else if 50 ≤ overallScore then
      "Godkänt men utvecklingspotential! Din webbplats får " ++
        toString overallScore ++ "/100 poäng. " ++ strongest.area ++
        " fungerar relativt bra (" ++ toString strongest.score ++
        "/100), men " ++ weakest.area ++ " behöver uppmärksamhet (" ++
        toString weakest.score ++ "/100). " ++
        (if 3 < criticalIssues then
          toString criticalIssues ++
            " kritiska problem påverkar användarupplevelsen och SEO betydligt. Prioritera dessa för snabba resultat."
        else
          "Fokuserade förbättringar inom tillgänglighet, SEO och design kommer ge märkbara resultat för både användare och sökmotorer.")
    else
      "Stort förbättringsbehov. Din webbplats når " ++
        toString overallScore ++
        "/100 poäng och behöver en omfattande genomgång. " ++
        (if 5 < criticalIssues then
          toString criticalIssues ++
            " kritiska problem påverkar användarupplevelsen, tillgängligheten och söksynligheten negativt. "
        else "") ++
        "Även om det finns utmaningar är potentialen stor - systematiska förbättringar kommer ge dramatiska resultat. " ++
        "Vi rekommenderar att börja med våra prioriterade åtgärder för snabba vinster."

/-- Overview block of the result. -/
structure OverviewResults where
  overallScore : ℤ
  summary : String
  priorityIssues : List String
  quickWins : List String
deriving DecidableEq, Repr

/-- The composed analysis result. -/
structure AnalysisResults where
  accessibility : AccessibilityResults
  seo : SEOResults
  design : DesignResults
  overview : OverviewResults
deriving DecidableEq, Repr

/-- Effective analysis mode (`(options?.mode ||
process.env.DEFAULT_ANALYSIS_MODE || 'deep') === 'deep'`). -/
inductive Mode where
  | basic
  | deep
deriving DecidableEq, Repr

/-- Outcome of the deep-mode audit fetch: the PSI call threw (caught in
the deep block), returned `null`, or returned a summary. -/
inductive AuditOutcome where
  | failed
  | noSignal
  | signal (lh : LighthouseSummary)
deriving DecidableEq, Repr

/-- The body of `analyzeWebsite` after a successful document fetch: run
the three analyzers, blend the audit signal when deep mode produced one
(a failed or null audit fetch blends nothing), then build the overview
from the blended results with `overallScore =
Math.round((acc + seo + design) / 3)`. -/
def analyzeWebsite (d : Doc) (u : UrlInfo) (aux : SeoAux)
    (loadTimeMs : ℕ) (mode : Mode) (audit : AuditOutcome) (lang : Lang) :
    AnalysisResults :=
  let acc0 := analyzeAccessibilityEnhanced d lang
  let seo0 := analyzeSEOEnhanced d u aux lang
  let des0 := analyzeDesignEnhanced d loadTimeMs lang
  let blended :=
    match mode, audit with
    | .deep, .signal lh => blendLighthouse acc0 seo0 des0 lh lang
    | _, _ => (acc0, seo0, des0)
  let acc := blended.1
  let seo := blended.2.1
  let des := blended.2.2
  let overallScore := jsRound (((acc.score + seo.score + des.score : ℤ) : ℚ) / 3)
  { accessibility := acc
    seo := seo
    design := des
    overview :=
      { overallScore := overallScore
        summary := generateSummary overallScore acc seo des lang
        priorityIssues :=
          extractPriorityIssues acc.issues seo.issues des.issues lang
        quickWins :=
          extractQuickWins acc.issues seo.issues des.issues lang } }

/-- The analysis result built from the three local analyzers alone, with
no audit blending. -/
def localOnlyResult (d : Doc) (u : UrlInfo) (aux : SeoAux)
    (loadTimeMs : ℕ) (lang : Lang) : AnalysisResults :=
  let acc := analyzeAccessibilityEnhanced d lang
  let seo := analyzeSEOEnhanced d u aux lang
  let des := analyzeDesignEnhanced d loadTimeMs lang
  let overallScore := jsRound (((acc.score + seo.score + des.score : ℤ) : ℚ) / 3)
  { accessibility := acc
    seo := seo
    design := des
    overview :=
      { overallScore := overallScore
        summary := generateSummary overallScore acc seo des lang
        priorityIssues :=
          extractPriorityIssues acc.issues seo.issues des.issues lang
        quickWins :=
          extractQuickWins acc.issues seo.issues des.issues lang } }

/-- The document fetch observation: `axios.get(url, { timeout: 30000,
validateStatus: s => s < 500, ... })` either throws (network error or
timeout), or resolves with a status; a status of 500 or above also makes
axios throw via `validateStatus`. -/
structure FetchedPage where
  status : ℕ
  doc : Doc
  url : UrlInfo
  loadTimeMs : ℕ
deriving Repr

/-- Outcome of the initial document fetch. -/
inductive FetchOutcome where
  | netError
  | timeout
  | response (page : FetchedPage)

/-- The outer `analyzeWebsite` including the fetch and the outer
try/catch: any axios rejection reaches the catch and is rethrown as
`Failed to analyze website: ...`; a resolved response (status below 500)
is parsed and fully analyzed. -/
def analyzeWebsiteTop (fetch : FetchOutcome) (aux : SeoAux) (mode : Mode)
    (audit : AuditOutcome) (lang : Lang) : Except String AnalysisResults :=
  match fetch with
  | .netError => .error "Failed to analyze website"
  | .timeout => .error "Failed to analyze website"
  | .response page =>
    if page.status < 500 then
      .ok (analyzeWebsite page.doc page.url aux page.loadTimeMs mode audit
        lang)
    else .error "Failed to analyze website"

/-!
Helper lemmas about the blending steps.
-/

theorem blendSeoMobile_score (seo : SEOResults) (lh : LighthouseSummary)
    (lang : Lang) : (blendSeoMobile seo lh lang).score = seo.score := by
  unfold blendSeoMobile
  split <;> rfl

theorem blendDesSpeedIndex_score (des : DesignResults)
    (lh : LighthouseSummary) (lang : Lang) :
    (blendDesSpeedIndex des lh lang).score = des.score := by
  unfold blendDesSpeedIndex
  split <;> first | rfl | (split <;> rfl)

theorem blendDesSpeedIndex_colorContrast (des : DesignResults)
    (lh : LighthouseSummary) (lang : Lang) :
    (blendDesSpeedIndex des lh lang).colorContrast = des.colorContrast := by
  unfold blendDesSpeedIndex
  split <;> first | rfl | (split <;> rfl)

theorem blendDesCls_colorContrast (des : DesignResults)
    (lh : LighthouseSummary) (lang : Lang) :
    (blendDesCls des lh lang).colorContrast = des.colorContrast := by
  unfold blendDesCls
  split <;> first | rfl | (split <;> rfl)

theorem max_sub_bounds {s p : ℤ} (h0 : 0 ≤ s) (h1 : s ≤ 100) (hp : 0 ≤ p) :
    0 ≤ max 0 (s - p) ∧ max 0 (s - p) ≤ 100 := by
  omega

theorem blendAcc_score_bounds (acc : AccessibilityResults)
    (lh : LighthouseSummary) (hs : 0 ≤ acc.score ∧ acc.score ≤ 100)
    (ha : ∀ a, lh.accessibilityScore = some a → 0 ≤ a ∧ a ≤ 100) :
    0 ≤ (blendAcc acc lh).score ∧ (blendAcc acc lh).score ≤ 100 := by
  unfold blendAcc
  cases hsc : lh.accessibilityScore with
  | none => exact hs
  | some a =>
    obtain ⟨ha0, ha1⟩ := ha a hsc
    obtain ⟨hs0, hs1⟩ := hs
    have hq0 : ((0 : ℤ) : ℚ) ≤ (acc.score : ℚ) := by exact_mod_cast hs0
    have hq1 : (acc.score : ℚ) ≤ ((100 : ℤ) : ℚ) := by exact_mod_cast hs1
    refine jsRound_bounds ?_ ?_
    · push_cast at hq0
      nlinarith
    · push_cast at hq1
      nlinarith

theorem blendSeoLcp_score_bounds (seo : SEOResults)
    (lh : LighthouseSummary) (lang : Lang)
    (hs : 0 ≤ seo.score ∧ seo.score ≤ 100) :
    0 ≤ (blendSeoLcp seo lh lang).score ∧
      (blendSeoLcp seo lh lang).score ≤ 100 := by
  unfold blendSeoLcp
  cases lh.lcpSeconds with
  | none => exact hs
  | some l =>
    by_cases h : (5 / 2 : ℚ) < l
    · simp only [h, if_true]
      exact max_sub_bounds hs.1 hs.2 (by split <;> norm_num)
    · simp only [h, if_false]
      exact hs

theorem blendSeoTbt_score_bounds (seo : SEOResults)
    (lh : LighthouseSummary) (lang : Lang)
    (hs : 0 ≤ seo.score ∧ seo.score ≤ 100) :
    0 ≤ (blendSeoTbt seo lh lang).score ∧
      (blendSeoTbt seo lh lang).score ≤ 100 := by
  unfold blendSeoTbt
  cases lh.tbtMs with
  | none => exact hs
  | some t =>
    by_cases h : (600 : ℚ) < t
    · simp only [h, if_true]
      exact max_sub_bounds hs.1 hs.2 (by norm_num)
    · simp only [h, if_false]
      exact hs

theorem blendDesCls_score_bounds (des : DesignResults)
    (lh : LighthouseSummary) (lang : Lang)
    (hs : 0 ≤ des.score ∧ des.score ≤ 100) :
    0 ≤ (blendDesCls des lh lang).score ∧
      (blendDesCls des lh lang).score ≤ 100 := by
  unfold blendDesCls
  cases lh.cls with
  | none => exact hs
  | some c =>
    by_cases h : (1 / 4 : ℚ) < c
    · simp only [h, if_true]
      exact max_sub_bounds hs.1 hs.2 (by norm_num)
    · simp only [h, if_false]
      exact hs

/-!
Claim theorems.
-/

/-- C2: for every input (document, auxiliary inputs, mode, audit signal,
locale), the returned `overview.overallScore` equals the round of the
arithmetic mean of the three (possibly blended) category scores of the
same result, exactly. -/
theorem c2_overallScore_rounded_mean (d : Doc) (u : UrlInfo) (aux : SeoAux)
    (loadTimeMs : ℕ) (mode : Mode) (audit : AuditOutcome) (lang : Lang) :
    (analyzeWebsite d u aux loadTimeMs mode audit lang).overview.overallScore =
      jsRound
        ((((analyzeWebsite d u aux loadTimeMs mode audit lang).accessibility.score +
            (analyzeWebsite d u aux loadTimeMs mode audit lang).seo.score +
            (analyzeWebsite d u aux loadTimeMs mode audit lang).design.score : ℤ) :
          ℚ) / 3) := by
  cases mode <;> cases audit <;> rfl

/-- C8: when the deep-mode audit fetch fails (exception caught) or
returns null, the analysis still returns a complete result equal to the
one computed from the three local analyzers alone — no blending
deduction, score adjustment, or appended audit issue. -/
theorem c8_audit_failure_degrades_to_local (d : Doc) (u : UrlInfo)
    (aux : SeoAux) (loadTimeMs : ℕ) (mode : Mode) (audit : AuditOutcome)
    (lang : Lang) (h : audit = .failed ∨ audit = .noSignal) :
    analyzeWebsite d u aux loadTimeMs mode audit lang =
      localOnlyResult d u aux loadTimeMs lang := by
  rcases h with rfl | rfl <;> cases mode <;> rfl

/-- C9: a fetched HTTP response with status below 500 (404 included) is
not a fetch failure — the body is analyzed and a full result returned;
network errors, timeouts and statuses of 500 and above are the only fatal
outcomes. -/
theorem c9_fetch_status_below_500_not_fatal (page : FetchedPage)
    (aux : SeoAux) (mode : Mode) (audit : AuditOutcome) (lang : Lang) :
    (page.status < 500 →
      analyzeWebsiteTop (.response page) aux mode audit lang =
        .ok (analyzeWebsite page.doc page.url aux page.loadTimeMs mode
          audit lang)) ∧
      (500 ≤ page.status →
        analyzeWebsiteTop (.response page) aux mode audit lang =
          .error "Failed to analyze website") ∧
      analyzeWebsiteTop .netError aux mode audit lang =
        .error "Failed to analyze website" ∧
      analyzeWebsiteTop .timeout aux mode audit lang =
        .error "Failed to analyze website" := by
  refine ⟨fun h => ?_, fun h => ?_, rfl, rfl⟩
  · simp [analyzeWebsiteTop, h]
  · simp [analyzeWebsiteTop, Nat.not_lt.mpr h]

/-- C10: for every document, the design result's contrast ratio is the
constant 4.5 (never measured) and `sufficient` is false exactly when the
white-text-on-light-background heuristic detects at least one element;
audit blending never touches the contrast record, so the same holds for
the composed result. -/
theorem c10_colorContrast_constant (d : Doc) (loadTimeMs : ℕ) (lang : Lang)
    (u : UrlInfo) (aux : SeoAux) (mode : Mode) (audit : AuditOutcome) :
    (analyzeDesignEnhanced d loadTimeMs lang).colorContrast.ratio = 4.5 ∧
      ((analyzeDesignEnhanced d loadTimeMs lang).colorContrast.sufficient =
          false ↔ 0 < d.lightTextOnLight) ∧
      (analyzeWebsite d u aux loadTimeMs mode audit lang).design.colorContrast =
        (analyzeDesignEnhanced d loadTimeMs lang).colorContrast := by
  refine ⟨rfl, ?_, ?_⟩
  · show (if 0 < d.lightTextOnLight then false else true) = false ↔
      0 < d.lightTextOnLight
    by_cases h : 0 < d.lightTextOnLight <;> simp [h]
  · cases mode <;> cases audit <;> try rfl
    case deep.signal lh =>
      rw [show (analyzeWebsite d u aux loadTimeMs .deep (.signal lh)
            lang).design.colorContrast =
          (blendDesSpeedIndex (blendDesCls (analyzeDesignEnhanced d
            loadTimeMs lang) lh lang) lh lang).colorContrast from rfl,
        blendDesSpeedIndex_colorContrast, blendDesCls_colorContrast]

/-- C7: during audit blending, an LCP above 2.5 seconds reduces the SEO
score by 5 (by 10 above 4 seconds), floored at 0; exactly one LCP issue is
appended to SEO's issue list, Error-severity exactly above 4 seconds; and
the recorded load-speed metric is raised to the maximum of the local value
and the audit LCP (stated with the other audit fields absent so the LCP
rule is observed in isolation). -/
theorem c7_lcp_blending (acc : AccessibilityResults) (seo : SEOResults)
    (des : DesignResults) (lh : LighthouseSummary) (lang : Lang) (l : ℚ)
    (hl : lh.lcpSeconds = some l) (h25 : 5 / 2 < l)
    (htbt : lh.tbtMs = none) (hmob : lh.mobileOptimized ≠ some false)
    (hfl : lh.auditsFlags = []) :
    (blendLighthouse acc seo des lh lang).2.1.score =
        max 0 (seo.score - (if 4 < l then 10 else 5)) ∧
      (blendLighthouse acc seo des lh lang).2.1.issues =
        seo.issues ++ [lcpIssue lang l] ∧
      (lcpIssue lang l).type =
        (if 4 < l then Severity.error else Severity.warning) ∧
      (blendLighthouse acc seo des lh lang).2.1.technical.loadSpeed =
        max seo.technical.loadSpeed l := by
  unfold blendLighthouse routeFlags blendSeoMobile blendSeoTbt blendSeoLcp
  rw [hl, htbt, hfl]
  simp only [h25, if_true, hmob, if_false, if_neg hmob, List.filter_nil,
    List.append_nil]
  exact ⟨trivial, trivial, rfl, trivial⟩

theorem mean3_round_bounds {a s d : ℤ}
    (ha0 : 0 ≤ a) (ha1 : a ≤ 100) (hs0 : 0 ≤ s) (hs1 : s ≤ 100)
    (hd0 : 0 ≤ d) (hd1 : d ≤ 100) :
    0 ≤ jsRound (((a + s + d : ℤ) : ℚ) / 3) ∧
      jsRound (((a + s + d : ℤ) : ℚ) / 3) ≤ 100 := by
  have ha0' : (0 : ℚ) ≤ (a : ℚ) := by exact_mod_cast ha0
  have ha1' : (a : ℚ) ≤ 100 := by exact_mod_cast ha1
  have hs0' : (0 : ℚ) ≤ (s : ℚ) := by exact_mod_cast hs0
  have hs1' : (s : ℚ) ≤ 100 := by exact_mod_cast hs1
  have hd0' : (0 : ℚ) ≤ (d : ℚ) := by exact_mod_cast hd0
  have hd1' : (d : ℚ) ≤ 100 := by exact_mod_cast hd1
  refine jsRound_bounds ?_ ?_
  · push_cast
    linarith
  · push_cast
    linarith

theorem analyzeWebsite_acc_deep (d : Doc) (u : UrlInfo) (aux : SeoAux)
    (loadTimeMs : ℕ) (lang : Lang) (lh : LighthouseSummary) :
    (analyzeWebsite d u aux loadTimeMs .deep (.signal lh)
        lang).accessibility.score =
      (blendAcc (analyzeAccessibilityEnhanced d lang) lh).score := rfl

theorem analyzeWebsite_seo_deep (d : Doc) (u : UrlInfo) (aux : SeoAux)
    (loadTimeMs : ℕ) (lang : Lang) (lh : LighthouseSummary) :
    (analyzeWebsite d u aux loadTimeMs .deep (.signal lh) lang).seo.score =
      (blendSeoMobile (blendSeoTbt (blendSeoLcp
        (analyzeSEOEnhanced d u aux lang) lh lang) lh lang) lh lang).score :=
  rfl

theorem analyzeWebsite_des_deep (d : Doc) (u : UrlInfo) (aux : SeoAux)
    (loadTimeMs : ℕ) (lang : Lang) (lh : LighthouseSummary) :
    (analyzeWebsite d u aux loadTimeMs .deep (.signal lh)
        lang).design.score =
      (blendDesSpeedIndex (blendDesCls (analyzeDesignEnhanced d loadTimeMs
        lang) lh lang) lh lang).score := rfl

/-- C1: for every document, auxiliary inputs, mode, locale and audit
signal (present — with its accessibility score in the documented 0-100
range — or absent), every category score and the overall score of the
returned result lies in `[0,100]`: each analyzer's clamp is its last step
and the audit blending preserves the range. -/
theorem c1_scores_in_range (d : Doc) (u : UrlInfo) (aux : SeoAux)
    (loadTimeMs : ℕ) (mode : Mode) (audit : AuditOutcome) (lang : Lang)
    (haud : ∀ lh a, audit = AuditOutcome.signal lh →
      lh.accessibilityScore = some a → 0 ≤ a ∧ a ≤ 100) :
    (0 ≤ (analyzeWebsite d u aux loadTimeMs mode audit
          lang).accessibility.score ∧
        (analyzeWebsite d u aux loadTimeMs mode audit
          lang).accessibility.score ≤ 100) ∧
      (0 ≤ (analyzeWebsite d u aux loadTimeMs mode audit lang).seo.score ∧
        (analyzeWebsite d u aux loadTimeMs mode audit lang).seo.score ≤
          100) ∧
      (0 ≤ (analyzeWebsite d u aux loadTimeMs mode audit
          lang).design.score ∧
        (analyzeWebsite d u aux loadTimeMs mode audit lang).design.score ≤
          100) ∧
      (0 ≤ (analyzeWebsite d u aux loadTimeMs mode audit
          lang).overview.overallScore ∧
        (analyzeWebsite d u aux loadTimeMs mode audit
          lang).overview.overallScore ≤ 100) := by
  have hacc0 : 0 ≤ (analyzeAccessibilityEnhanced d lang).score ∧
      (analyzeAccessibilityEnhanced d lang).score ≤ 100 :=
    ⟨clampScore_nonneg _, clampScore_le_100 _⟩
  have hseo0 : 0 ≤ (analyzeSEOEnhanced d u aux lang).score ∧
      (analyzeSEOEnhanced d u aux lang).score ≤ 100 :=
    ⟨clampScore_nonneg _, clampScore_le_100 _⟩
  have hdes0 : 0 ≤ (analyzeDesignEnhanced d loadTimeMs lang).score ∧
      (analyzeDesignEnhanced d loadTimeMs lang).score ≤ 100 :=
    ⟨clampScore_nonneg _, clampScore_le_100 _⟩
  have hfinal : ∀ ha : 0 ≤ (analyzeWebsite d u aux loadTimeMs mode audit
        lang).accessibility.score ∧
      (analyzeWebsite d u aux loadTimeMs mode audit
        lang).accessibility.score ≤ 100,
      ∀ hs : 0 ≤ (analyzeWebsite d u aux loadTimeMs mode audit
          lang).seo.score ∧
        (analyzeWebsite d u aux loadTimeMs mode audit lang).seo.score ≤ 100,
      ∀ hd : 0 ≤ (analyzeWebsite d u aux loadTimeMs mode audit
          lang).design.score ∧
        (analyzeWebsite d u aux loadTimeMs mode audit lang).design.score ≤
          100,
      (0 ≤ (analyzeWebsite d u aux loadTimeMs mode audit
          lang).accessibility.score ∧
        (analyzeWebsite d u aux loadTimeMs mode audit
          lang).accessibility.score ≤ 100) ∧
      (0 ≤ (analyzeWebsite d u aux loadTimeMs mode audit lang).seo.score ∧
        (analyzeWebsite d u aux loadTimeMs mode audit lang).seo.score ≤
          100) ∧
      (0 ≤ (analyzeWebsite d u aux loadTimeMs mode audit
          lang).design.score ∧
        (analyzeWebsite d u aux loadTimeMs mode audit lang).design.score ≤
          100) ∧
      (0 ≤ (analyzeWebsite d u aux loadTimeMs mode audit
          lang).overview.overallScore ∧
        (analyzeWebsite d u aux loadTimeMs mode audit
          lang).overview.overallScore ≤ 100) := by
    intro ha hs hd
    refine ⟨ha, hs, hd, ?_⟩
    rw [c2_overallScore_rounded_mean]
    exact mean3_round_bounds ha.1 ha.2 hs.1 hs.2 hd.1 hd.2
  cases mode with
  | basic =>
    cases audit with
    | failed => exact hfinal hacc0 hseo0 hdes0
    | noSignal => exact hfinal hacc0 hseo0 hdes0
    | signal lh => exact hfinal hacc0 hseo0 hdes0
  | deep =>
    cases audit with
    | failed => exact hfinal hacc0 hseo0 hdes0
    | noSignal => exact hfinal hacc0 hseo0 hdes0
    | signal lh =>
      have ha : 0 ≤ (analyzeWebsite d u aux loadTimeMs .deep (.signal lh)
            lang).accessibility.score ∧
          (analyzeWebsite d u aux loadTimeMs .deep (.signal lh)
            lang).accessibility.score ≤ 100 := by
        rw [analyzeWebsite_acc_deep]
        exact blendAcc_score_bounds _ lh hacc0 fun a hsc => haud lh a rfl hsc
      have hs : 0 ≤ (analyzeWebsite d u aux loadTimeMs .deep (.signal lh)
            lang).seo.score ∧
          (analyzeWebsite d u aux loadTimeMs .deep (.signal lh)
            lang).seo.score ≤ 100 := by
        rw [analyzeWebsite_seo_deep, blendSeoMobile_score]
        exact blendSeoTbt_score_bounds _ lh lang
          (blendSeoLcp_score_bounds _ lh lang hseo0)
      have hd : 0 ≤ (analyzeWebsite d u aux loadTimeMs .deep (.signal lh)
            lang).design.score ∧
          (analyzeWebsite d u aux loadTimeMs .deep (.signal lh)
            lang).design.score ≤ 100 := by
        rw [analyzeWebsite_des_deep, blendDesSpeedIndex_score]
        exact blendDesCls_score_bounds _ lh lang hdes0
      exact hfinal ha hs hd

/-!
Concrete documents for the scenario claims and the witnesses.
-/

/-- The scenario document of C3: no `<html lang>`, exactly one `h1`, a
55-character title, viewport present, 10 images all with non-empty alt
text, and every other check passing. -/
def c3Doc : Doc :=
  { imgNoAltAttr := 0
    imgEmptyAlt := 0
    imgBlankAlt := 0
    imgGoodAlt := 10
    imagesWithSrcset := 5
    respImages := 5
    lazyImages := 6
    h1Count := 1
    h2Count := 2
    h3Count := 1
    h4Count := 0
    h1Text := "Welcome to Quality Web"
    headerStructure := ["h1", "h2", "h2", "h3"]
    inputsNoLabel := 0
    inputsLabeled := 0
    reqWithAria := 0
    reqNoAria := 0
    linksNoText := 0
    linksGenericText := 0
    internalLinks := 5
    hasSkipLink := true
    buttonsNoText := 0
    htmlLang := none
    hasMain := true
    navCount := 1
    inlineColorStyles := 0
    focusableCount := 12
    negTabindexCount := 0
    videosNoCaptions := 0
    titleAttrCount := 0
    title := "Quality Web Design Services for Small Businesses Today."
    metaDescription := some
      "We build fast, accessible and search friendly websites for small businesses, with clear design, solid SEO and measurable results for your growth."
    hasViewportMeta := true
    viewportContent := some "width=device-width, initial-scale=1"
    canonical := .sameHost
    hasOgTitle := true
    hasOgDescription := true
    hasOgImage := true
    hasTwitterCard := true
    hasJsonLd := true
    hasMicrodata := false
    wordCount := 500
    hasHreflang := false
    externalCSS := 2
    externalScripts := 3
    paragraphCount := 10
    paragraphChars := 2000
    wideContainers := 5
    tinyTextCount := 0
    navLinks := 4
    hasMobileMenu := false
    lightTextOnLight := 0
    hasSections := true
    headersNoMargin := 0
    designButtons := 3
    primaryCTAs := 1
    formsCount := 0
    designInputsNoLabel := 0
    allInputsCount := 0
    hasValidationAttrs := false
    hasFooter := true
    hasFavicon := true }

/-- An HTTPS URL of modest length with no query string. -/
def c3Url : UrlInfo :=
  { isHttps := true, urlLength := 24, hasQuery := false }

/-- Probes resolve: robots.txt present without a blanket disallow,
sitemap present; request span 1200ms. -/
def c3Aux : SeoAux :=
  { robots := .ok true false
    sitemapFirst := some true
    sitemapAlt := none
    loadSpeedMs := 1200 }

set_option maxRecDepth 8000 in
theorem c3_penalty_acc : accPenalty c3Doc = 8 := by
  decide

set_option maxRecDepth 8000 in
theorem c3_penalty_seo : seoPenalty c3Doc c3Url c3Aux = 5 := by
  norm_num [seoPenalty, c3Doc, c3Url, c3Aux, seoLoadSpeedPenalty,
    seoImagesAltPenalty, Doc.metaTruthy, Doc.metaDescLength,
    Doc.seoImagesWithoutAlt, Doc.seoImagesWithAlt, Doc.totalImages,
    Doc.viewportMisconfigured, hasSitemapOf, RobotsProbe.hasRobotsTxt,
    RobotsProbe.disallowAll, jsIncludes]
  decide

set_option maxRecDepth 8000 in
theorem c3_penalty_des : designPenalty c3Doc 1200 = 0 := by
  norm_num [designPenalty, c3Doc, Doc.totalImages, Doc.typoHierarchy,
    Doc.designImagesNoAlt, Doc.viewportBlocksZoom, designImagesAltPenalty,
    designLoadSlowPenalty, designLoadVerySlowPenalty, jsIncludes]
  decide

set_option maxRecDepth 8000 in
theorem c3_eval_acc :
    (analyzeWebsite c3Doc c3Url c3Aux 1200 .deep .noSignal
      .en).accessibility.score = 92 := by
  show clampScore (100 - accPenalty c3Doc) = 92
  rw [c3_penalty_acc]
  decide

set_option maxRecDepth 8000 in
theorem c3_eval_seo :
    (analyzeWebsite c3Doc c3Url c3Aux 1200 .deep .noSignal
      .en).seo.score = 95 := by
  show clampScore (100 - seoPenalty c3Doc c3Url c3Aux) = 95
  rw [c3_penalty_seo]
  decide

set_option maxRecDepth 8000 in
theorem c3_eval_des :
    (analyzeWebsite c3Doc c3Url c3Aux 1200 .deep .noSignal
      .en).design.score = 100 := by
  show clampScore (100 - designPenalty c3Doc 1200) = 100
  rw [c3_penalty_des]
  decide

set_option maxRecDepth 8000 in
theorem c3_eval_overall :
    (analyzeWebsite c3Doc c3Url c3Aux 1200 .deep .noSignal
      .en).overview.overallScore = 96 := by
  have h : (analyzeWebsite c3Doc c3Url c3Aux 1200 .deep .noSignal
        .en).overview.overallScore =
      jsRound
        ((((analyzeWebsite c3Doc c3Url c3Aux 1200 .deep .noSignal
              .en).accessibility.score +
            (analyzeWebsite c3Doc c3Url c3Aux 1200 .deep .noSignal
              .en).seo.score +
            (analyzeWebsite c3Doc c3Url c3Aux 1200 .deep .noSignal
              .en).design.score : ℤ) : ℚ) / 3) := rfl
  rw [h, c3_eval_acc, c3_eval_seo, c3_eval_des]
  norm_num [jsRound]

/-- C3 counterexample: on a document satisfying every stated scenario
property, the engine does not return SEO 100 and overall 97 — the missing
`<html lang>` is penalized by the SEO analyzer too (check 15, minus 5). -/
theorem c3_counterexample :
    ¬ ((analyzeWebsite c3Doc c3Url c3Aux 1200 .deep .noSignal
          .en).accessibility.score = 92 ∧
        (analyzeWebsite c3Doc c3Url c3Aux 1200 .deep .noSignal
          .en).seo.score = 100 ∧
        (analyzeWebsite c3Doc c3Url c3Aux 1200 .deep .noSignal
          .en).design.score = 100 ∧
        (analyzeWebsite c3Doc c3Url c3Aux 1200 .deep .noSignal
          .en).overview.overallScore = 97) := by
  intro h
  have h100 := h.2.1
  rw [c3_eval_seo] at h100
  exact absurd h100 (by decide)

/-- C3 (amended): the scenario document (55-character title included)
yields accessibility 92 (100 − 8 for the missing lang), SEO 95 (the
missing lang costs 5 in SEO as well), design 100, and overall
round(287/3) = 96. -/
theorem c3_amended_scenario :
    c3Doc.title.length = 55 ∧
      (analyzeWebsite c3Doc c3Url c3Aux 1200 .deep .noSignal
        .en).accessibility.score = 92 ∧
      (analyzeWebsite c3Doc c3Url c3Aux 1200 .deep .noSignal
        .en).seo.score = 95 ∧
      (analyzeWebsite c3Doc c3Url c3Aux 1200 .deep .noSignal
        .en).design.score = 100 ∧
      (analyzeWebsite c3Doc c3Url c3Aux 1200 .deep .noSignal
        .en).overview.overallScore = 96 :=
  ⟨by decide, c3_eval_acc, c3_eval_seo, c3_eval_des, c3_eval_overall⟩

/-- The C4 document: every accessibility check passes except 21 buttons
without text. -/
def c4Doc : Doc :=
  { c3Doc with htmlLang := some "en", buttonsNoText := 21 }

set_option maxRecDepth 8000 in
/-- C4 counterexample: the button-text check subtracts a
count-proportional amount with no cap — at 21 offending buttons it
subtracts 105, more than the whole 100-point scale (every capped check in
the source caps at 30 or less), driving the accessibility score of an
otherwise perfect document to 0. -/
theorem c4_counterexample :
    buttonsTextPenalty 21 = 105 ∧ ¬ buttonsTextPenalty 21 ≤ 100 ∧
      (analyzeAccessibilityEnhanced c4Doc .en).score = 0 := by
  decide

/-- C4 (amended): the count-proportional checks for image alt text (cap
30), form labels (cap 20), link text (cap 15), SEO image alt text (cap
10), design image alt text (cap 10) and the load-time checks (caps
15/15/25) are capped per check, but the accessibility button-text (5 per
button) and video-captions (8 per video) penalties are unbounded; and in
every analyzer only the final clamp enforces the floor — the returned
score is exactly `clamp(100 − total deductions)` with no mid-evaluation
floor. -/
theorem c4_amended_caps :
    (∀ n : ℕ, imagesAltPenalty n ≤ 30) ∧
      (∀ n : ℕ, labelsPenalty n ≤ 20) ∧
      (∀ n : ℕ, linksTextPenalty n ≤ 15) ∧
      (∀ n : ℕ, seoImagesAltPenalty n ≤ 10) ∧
      (∀ n : ℕ, designImagesAltPenalty n ≤ 10) ∧
      (∀ ms : ℕ, seoLoadSpeedPenalty ms ≤ 15) ∧
      (∀ ms : ℕ, designLoadSlowPenalty ms ≤ 15) ∧
      (∀ ms : ℕ, designLoadVerySlowPenalty ms ≤ 25) ∧
      (∀ C : ℤ, ∃ n : ℕ, C < buttonsTextPenalty n) ∧
      (∀ C : ℤ, ∃ n : ℕ, C < videoCaptionsPenalty n) ∧
      (∀ (d : Doc) (lang : Lang),
        (analyzeAccessibilityEnhanced d lang).score =
          clampScore (100 - accPenalty d)) ∧
      (∀ (d : Doc) (u : UrlInfo) (aux : SeoAux) (lang : Lang),
        (analyzeSEOEnhanced d u aux lang).score =
          clampScore (100 - seoPenalty d u aux)) ∧
      (∀ (d : Doc) (loadTimeMs : ℕ) (lang : Lang),
        (analyzeDesignEnhanced d loadTimeMs lang).score =
          clampScore (100 - designPenalty d loadTimeMs)) := by
  refine ⟨fun n => min_le_left _ _, fun n => min_le_left _ _,
    fun n => min_le_left _ _, fun n => min_le_left _ _,
    fun n => min_le_left _ _, fun ms => min_le_left _ _,
    fun ms => min_le_left _ _, fun ms => min_le_left _ _,
    fun C => ?_, fun C => ?_,
    fun d lang => rfl, fun d u aux lang => rfl,
    fun d loadTimeMs lang => rfl⟩
  · refine ⟨C.toNat + 1, ?_⟩
    unfold buttonsTextPenalty
    push_cast
    omega
  · refine ⟨C.toNat + 1, ?_⟩
    unfold videoCaptionsPenalty
    push_cast
    omega

/-!
Witnesses: each applies its claim theorem at a concrete input and
discharges the hypotheses there.
-/

/-- C1 witness input is the C3 scenario run with no audit signal. -/
theorem c1_witness :
    (0 ≤ (analyzeWebsite c3Doc c3Url c3Aux 1200 .deep .noSignal
          .en).accessibility.score ∧
        (analyzeWebsite c3Doc c3Url c3Aux 1200 .deep .noSignal
          .en).accessibility.score ≤ 100) ∧
      (0 ≤ (analyzeWebsite c3Doc c3Url c3Aux 1200 .deep .noSignal
          .en).seo.score ∧
        (analyzeWebsite c3Doc c3Url c3Aux 1200 .deep .noSignal
          .en).seo.score ≤ 100) ∧
      (0 ≤ (analyzeWebsite c3Doc c3Url c3Aux 1200 .deep .noSignal
          .en).design.score ∧
        (analyzeWebsite c3Doc c3Url c3Aux 1200 .deep .noSignal
          .en).design.score ≤ 100) ∧
      (0 ≤ (analyzeWebsite c3Doc c3Url c3Aux 1200 .deep .noSignal
          .en).overview.overallScore ∧
        (analyzeWebsite c3Doc c3Url c3Aux 1200 .deep .noSignal
          .en).overview.overallScore ≤ 100) :=
  c1_scores_in_range c3Doc c3Url c3Aux 1200 .deep .noSignal .en
    fun _ _ h _ => nomatch h

/-- C6 witness: with no issues at all, no accessibility message contains
"alt", so the alt-text quick win is absent. -/
theorem c6_witness :
    altTextAction .en ∉ extractQuickWins [] [] [] .en :=
  (c6_extractQuickWins_correct [] [] [] .en).2.2 fun _ hi => nomatch hi

/-- Concrete pre-blend accessibility result for the C7 witness. -/
def accW : AccessibilityResults :=
  { score := 90, issues := [], strengths := [] }

/-- Concrete pre-blend SEO result for the C7 witness. -/
def seoW : SEOResults :=
  { score := 80
    technical :=
      { loadSpeed := 6 / 5
        mobileOptimized := true
        httpsEnabled := true
        hasRobotsTxt := true
        hasSitemap := true }
    onPage :=
      { hasUniqueTitle := true
        hasMetaDescription := true
        hasH1 := true
        headerStructure := ["h1"]
        imagesWithAlt := 3
        totalImages := 3 }
    issues := [] }

/-- Concrete pre-blend design result for the C7 witness. -/
def desW : DesignResults :=
  { score := 100
    responsive := true
    loadTime := 6 / 5
    colorContrast := { sufficient := true, ratio := 4.5 }
    typography := { readable := true, hierarchy := true }
    navigation := { clear := true, accessible := true }
    issues := [] }

/-- An audit signal reporting only LCP = 5.0 seconds. -/
def lhW : LighthouseSummary :=
  { performanceScore := none
    accessibilityScore := none
    lcpSeconds := some 5
    fcpSeconds := none
    cls := none
    tbtMs := none
    tiSeconds := none
    speedIndexSeconds := none
    mobileOptimized := none
    auditsFlags := [] }

/-- C7 witness: at LCP = 5.0s the penalty is 10, the appended issue is
Error-severity, and the load-speed metric is raised. -/
theorem c7_witness :
    (blendLighthouse accW seoW desW lhW .en).2.1.score =
        max 0 (seoW.score - (if (4 : ℚ) < 5 then 10 else 5)) ∧
      (blendLighthouse accW seoW desW lhW .en).2.1.issues =
        seoW.issues ++ [lcpIssue .en 5] ∧
      (lcpIssue .en 5).type =
        (if (4 : ℚ) < 5 then Severity.error else Severity.warning) ∧
      (blendLighthouse accW seoW desW lhW .en).2.1.technical.loadSpeed =
        max seoW.technical.loadSpeed 5 :=
  c7_lcp_blending accW seoW desW lhW .en 5 rfl (by norm_num) rfl
    (by simp [lhW]) rfl

/-- C8 witness: a failed audit fetch on the C3 scenario degrades to the
local-only result. -/
theorem c8_witness :
    analyzeWebsite c3Doc c3Url c3Aux 1200 .deep .failed .en =
      localOnlyResult c3Doc c3Url c3Aux 1200 .en :=
  c8_audit_failure_degrades_to_local c3Doc c3Url c3Aux 1200 .deep .failed
    .en (Or.inl rfl)

/-- A 404 response carrying the C3 scenario document. -/
def page404 : FetchedPage :=
  { status := 404, doc := c3Doc, url := c3Url, loadTimeMs := 1200 }

/-- C9 witness: a 404 response is analyzed, not treated as a fetch
failure. -/
theorem c9_witness :
    analyzeWebsiteTop (.response page404) c3Aux .deep .noSignal .en =
      .ok (analyzeWebsite page404.doc page404.url c3Aux page404.loadTimeMs
        .deep .noSignal .en) :=
  (c9_fetch_status_below_500_not_fatal page404 c3Aux .deep .noSignal
    .en).1 (by decide)

end WebsiteAnalyzer
